import Mathlib

/-!
Verification of the clothion cache-sync and query engine
(`clothion/database/crud.py`, `clothion/notion_cache.py`) against its
natural-language specification.

The Python code is shallowly embedded: the SQLAlchemy store becomes explicit
list-based state (`DB`), datetimes become a `days`/`seconds` structure
(Python `datetime` in UTC), SQL expressions become a small condition AST
(`CondExpr`) with SQL NULL semantics in `evalCond`, and Python exceptions
become `Except`.  External collaborators (the `dateutil` ISO-8601 parser and
its calendar arithmetic for months/years, and the Notion API client) are
parameters of the embedded functions.
-/

namespace Clothion

/-- A UTC `datetime`: a day number (days since the epoch, 1970-01-01) and the
second within the day.  1970-01-01 was a Thursday, so the Python `weekday()`
(Monday = 0) of a day number `n` is `(n + 3) % 7`. -/
structure DateTime where
  days : Int
  sec : Nat
  deriving DecidableEq, Repr

/-- Lexicographic order on datetimes, as a Bool (used in SQL comparisons). -/
def dtLeb (a b : DateTime) : Bool :=
  decide (a.days < b.days) || (decide (a.days = b.days) && decide (a.sec ≤ b.sec))

/-- Strict lexicographic order on datetimes. -/
def dtLtb (a b : DateTime) : Bool :=
  decide (a.days < b.days) || (decide (a.days = b.days) && decide (a.sec < b.sec))

/-- Shift a datetime by a whole number of days (time of day unchanged):
Python `datetime + relativedelta(days=k)` / `relativedelta(weeks=k)` (weeks
scale by 7); exact because the model is timezone-free UTC. -/
def DateTime.addDays (a : DateTime) (k : Int) : DateTime :=
  ⟨a.days + k, a.sec⟩

/-- Python `dt.replace(hour=0, minute=0, second=0, microsecond=0)`. -/
def DateTime.floorDay (a : DateTime) : DateTime :=
  ⟨a.days, 0⟩

/-- Python `dt.weekday()`: Monday = 0, ..., Sunday = 6. -/
def DateTime.weekday (a : DateTime) : Int :=
  (a.days + 3) % 7

/-- A day boundary that falls on a Monday: used to state the calendar-week
claims independently of the code that computes week starts. -/
def isMondayMidnight (a : DateTime) : Bool :=
  decide (a.sec = 0) && decide ((a.days + 3) % 7 = 0)

/-- A JSON operand value as received in a filter descriptor (Python keeps
`bool`, `int`, `float` and `str` apart, and `bool` is checked before `int`). -/
inductive Value where
  | vBool (b : Bool)
  | vInt (n : Int)
  | vFloat (q : Rat)
  | vStr (s : String)
  deriving DecidableEq, Repr

/-- A value stored in one of the four typed slots of an attribute row. -/
inductive DBValue where
  | b (x : Bool)
  | n (x : Rat)
  | s (x : String)
  | d (x : DateTime)
  deriving DecidableEq, Repr

/-- The nullable column of the `attributes` table a condition applies to
(the `prop` argument of `make_condition`). -/
inductive Col where
  | value_bool
  | value_number
  | value_string
  | value_date
  deriving DecidableEq, Repr

/-- The SQL expression built by `make_condition` from one operator: a
comparison of a column against a constant, a NULL test, a `BETWEEN`, or one
of the string predicates. -/
inductive CondExpr where
  | eq (v : DBValue)
  | ne (v : DBValue)
  | isNull
  | isNotNull
  | gt (v : DBValue)
  | ge (v : DBValue)
  | lt (v : DBValue)
  | le (v : DBValue)
  | between (lo hi : DBValue)
  | startsWith (s : String)
  | endsWith (s : String)
  | containsStr (s : String)
  | notContainsStr (s : String)
  deriving DecidableEq, Repr

/-- A condition together with the column it constrains. -/
structure ColCond where
  col : Col
  cond : CondExpr
  deriving DecidableEq, Repr

/-- Same-kind comparison of stored values (only like kinds are ever
compared by the generated SQL; unlike kinds compare false). -/
def dbLeb : DBValue → DBValue → Bool
  | DBValue.n a, DBValue.n b => decide (a ≤ b)
  | DBValue.d a, DBValue.d b => dtLeb a b
  | DBValue.s a, DBValue.s b => decide (a ≤ b)
  | _, _ => false

/-- Strict same-kind comparison of stored values. -/
def dbLtb : DBValue → DBValue → Bool
  | DBValue.n a, DBValue.n b => decide (a < b)
  | DBValue.d a, DBValue.d b => dtLtb a b
  | DBValue.s a, DBValue.s b => decide (a < b)
  | _, _ => false

/-- Substring test backing the SQL `LIKE`-based `contains`. -/
def strContains (t pat : String) : Bool :=
  pat.isEmpty || decide ((t.splitOn pat).length ≥ 2)

/-- Evaluate a condition on the (nullable) content of a column, collapsing
SQL three-valued logic at row selection: a comparison with NULL never
selects the row, `IS NULL` selects exactly the NULL rows, and the negated
`contains` also rejects NULL (NOT NULL = NULL in SQL). -/
def evalCond : CondExpr → Option DBValue → Bool
  | CondExpr.isNull, none => true
  | CondExpr.isNull, some _ => false
  | CondExpr.isNotNull, none => false
  | CondExpr.isNotNull, some _ => true
  | _, none => false
  | CondExpr.eq v, some w => decide (w = v)
  | CondExpr.ne v, some w => decide (w ≠ v)
  | CondExpr.gt v, some w => dbLtb v w
  | CondExpr.ge v, some w => dbLeb v w
  | CondExpr.lt v, some w => dbLtb w v
  | CondExpr.le v, some w => dbLeb w v
  | CondExpr.between lo hi, some w => dbLeb lo w && dbLeb w hi
  | CondExpr.startsWith s, some w =>
      match w with | DBValue.s t => t.startsWith s | _ => false
  | CondExpr.endsWith s, some w =>
      match w with | DBValue.s t => t.endsWith s | _ => false
  | CondExpr.containsStr s, some w =>
      match w with | DBValue.s t => strContains t s | _ => false
  | CondExpr.notContainsStr s, some w =>
      match w with | DBValue.s t => !(strContains t s) | _ => false

/-- Calendar arithmetic supplied by `dateutil.relativedelta` and
`datetime.replace` for month- and year-sized windows (external library;
week-sized arithmetic is exact day arithmetic and is done concretely). -/
structure CalendarOps where
  addMonths : Int → DateTime → DateTime
  addYears : Int → DateTime → DateTime
  startOfMonth : DateTime → DateTime
  startOfYear : DateTime → DateTime

/-- Type-tag constant from `crud.py`. -/
def BOOL : String := "boolean"

/-- Type-tag constant from `crud.py`. -/
def DATE : String := "date"

/-- Type-tag constant from `crud.py`. -/
def NUMBER : String := "number"

/-- Type-tag constant from `crud.py`. -/
def STRING : String := "string"

/-- Type-tag constant from `crud.py`. -/
def MULTISTRING : String := "multistring"

/-- Python `json.dumps` on a plain string: wrap in double quotes (escaping of
special characters inside the string is not modelled; all values in this
development are plain). -/
def jsonDumps (s : String) : String := "\x22" ++ s ++ "\x22"

/-- Operand value after the type-specific preprocessing of `make_condition`
(date operands are parsed, multistring operands JSON-encoded). -/
inductive TValue where
  | tB (b : Bool)
  | tI (n : Int)
  | tF (q : Rat)
  | tS (s : String)
  | tD (d : DateTime)
  deriving DecidableEq, Repr

/-- Python `type(value) in expected_types` for the `expected_types` assigned
per property type at the top of `make_condition`. -/
def typeOk : String → TValue → Bool
  | pt, v =>
    if pt = BOOL then match v with | TValue.tB _ => true | _ => false
    else if pt = NUMBER then
      match v with | TValue.tI _ => true | TValue.tF _ => true | _ => false
    else if pt = STRING then match v with | TValue.tS _ => true | _ => false
    else if pt = DATE then match v with | TValue.tD _ => true | _ => false
    else if pt = MULTISTRING then match v with | TValue.tS _ => true | _ => false
    else false

/-- Stored-value image of a preprocessed operand (ints and floats land in the
number slot, as in the Float column of the store). -/
def TValue.toDB : TValue → DBValue
  | TValue.tB b => DBValue.b b
  | TValue.tI n => DBValue.n n
  | TValue.tF q => DBValue.n q
  | TValue.tS s => DBValue.s s
  | TValue.tD d => DBValue.d d

/-- Literal description of a Python type, used in the error messages. -/
def pyTypeName : Value → String
  | Value.vBool _ => "bool"
  | Value.vInt _ => "int"
  | Value.vFloat _ => "float"
  | Value.vStr _ => "str"

/-- Error text for an operand of the wrong type (the f-string in the source
interpolates the operator, the expected types and the received type). -/
def wrongTypeMsg (op expected : String) (value : Value) : String :=
  "Filter `" ++ op ++ "` expected a value of type " ++ expected ++
    " (but got " ++ pyTypeName value ++ ")"

/-- The type-specific preprocessing at the top of `make_condition`: date
operands of absolute-date operators must be ISO-8601 strings and are parsed
(normalised to UTC by the parser), multistring operands of everything but
`is_empty` must be strings and are JSON-encoded; other operands pass
through unchanged. -/
def preprocessValue (parse : String → Option DateTime) (op : String)
    (value : Value) (prop_type : String) : Except String TValue :=
  if prop_type = DATE ∧ op ∉ ["is_empty", "past", "next", "this"] then
    match value with
    | Value.vStr s =>
      match parse s with
      | some d => Except.ok (TValue.tD d)
      | none =>
        Except.error ("Given value for date (" ++ s ++ ") is not a valid date)")
    | _ =>
      Except.error ("Given value for date (" ++ pyTypeName value ++
        ") is not a valid date)")
  else if prop_type = MULTISTRING ∧ op ≠ "is_empty" then
    match value with
    | Value.vStr s => Except.ok (TValue.tS (jsonDumps s))
    | _ => Except.error (wrongTypeMsg op "(str,)" value)
  else
    match value with
    | Value.vBool b => Except.ok (TValue.tB b)
    | Value.vInt n => Except.ok (TValue.tI n)
    | Value.vFloat q => Except.ok (TValue.tF q)
    | Value.vStr s => Except.ok (TValue.tS s)

/-- Textual form of the `expected_types` tuple for a property type, used in
the type-mismatch error messages. -/
def expectedTypesStr (pt : String) : String :=
  if pt = BOOL then "(bool,)"
  else if pt = NUMBER then "(int, float)"
  else if pt = DATE then "(datetime,)"
  else "(str,)"

/-- Name of the preprocessed operand type, for the mismatch messages. -/
def tvTypeName : TValue → String
  | TValue.tB _ => "bool"
  | TValue.tI _ => "int"
  | TValue.tF _ => "float"
  | TValue.tS _ => "str"
  | TValue.tD _ => "datetime"

/-- Error text for a preprocessed operand of the wrong type. -/
def wrongTypeMsgT (op : String) (pt : String) (v : TValue) : String :=
  "Filter `" ++ op ++ "` expected a value of type " ++ expectedTypesStr pt ++
    " (but got " ++ tvTypeName v ++ ")"

/-- The operator dispatch of `make_condition` (everything after the
preprocessing), translated branch for branch from the source.  `col` is the
`prop` argument (the column the condition is built over), `now` the
wall-clock UTC time read by the relative-window operators. -/
def makeConditionOp (cal : CalendarOps) (now : DateTime) (col : Col)
    (op : String) (v : TValue) (prop_type : String) : Except String ColCond :=
  if op = "is" ∨ op = "is_not" then
    if prop_type = MULTISTRING then
      Except.error ("Multi-string attribute can\x27t use `" ++ op ++
        "` filters. Use `contains`/`does_not_contain` instead")
    else if !(typeOk prop_type v) then
      Except.error (wrongTypeMsgT op prop_type v)
    else if op = "is" then Except.ok ⟨col, CondExpr.eq v.toDB⟩
    else Except.ok ⟨col, CondExpr.ne v.toDB⟩
  else if op = "is_empty" then
    if prop_type = BOOL then
      Except.error ("Boolean attribute can never be empty. Can\x27t use `" ++
        op ++ "` filter.")
    else
      match v with
      | TValue.tB b =>
        if b then Except.ok ⟨col, CondExpr.isNull⟩
        else Except.ok ⟨col, CondExpr.isNotNull⟩
      | _ =>
        Except.error ("Filter `" ++ op ++
          "` expected a value of type boolean (but got " ++ tvTypeName v ++ ")")
  else if op ∈ ["after", "on_or_after", "before", "on_or_before", "past",
      "next", "this"] then
    if prop_type ≠ DATE then
      Except.error ("Filter `" ++ op ++ "` can only be applied to Date attributes.")
    else if op = "after" then Except.ok ⟨col, CondExpr.gt v.toDB⟩
    else if op = "on_or_after" then Except.ok ⟨col, CondExpr.ge v.toDB⟩
    else if op = "before" then Except.ok ⟨col, CondExpr.lt v.toDB⟩
    else if op = "on_or_before" then Except.ok ⟨col, CondExpr.le v.toDB⟩
    else if op = "past" ∨ op = "next" then
      if v = TValue.tS "week" then
        if op = "past" then
          Except.ok ⟨col, CondExpr.between (DBValue.d (now.addDays (-7))) (DBValue.d now)⟩
        else
          Except.ok ⟨col, CondExpr.between (DBValue.d now) (DBValue.d (now.addDays 7))⟩
      else if v = TValue.tS "month" then
        if op = "past" then
          Except.ok ⟨col, CondExpr.between (DBValue.d (cal.addMonths (-1) now)) (DBValue.d now)⟩
        else
          Except.ok ⟨col, CondExpr.between (DBValue.d now) (DBValue.d (cal.addMonths 1 now))⟩
      else if v = TValue.tS "year" then
        if op = "past" then
          Except.ok ⟨col, CondExpr.between (DBValue.d (cal.addYears (-1) now)) (DBValue.d now)⟩
        else
          Except.ok ⟨col, CondExpr.between (DBValue.d now) (DBValue.d (cal.addYears 1 now))⟩
      else
        Except.error ("Unknown time window `" ++ tvTypeName v ++
          "`. Please use `week`, `month` or `year`.")
    else
      let today := now.floorDay
      if v = TValue.tS "week" then
        let start := today.addDays (-(today.weekday))
        Except.ok ⟨col, CondExpr.between (DBValue.d start) (DBValue.d (start.addDays 7))⟩
      else if v = TValue.tS "month" then
        let start := cal.startOfMonth today
        Except.ok ⟨col, CondExpr.between (DBValue.d start) (DBValue.d (cal.addMonths 1 start))⟩
      else if v = TValue.tS "year" then
        let start := cal.startOfYear today
        Except.ok ⟨col, CondExpr.between (DBValue.d start) (DBValue.d (cal.addYears 1 start))⟩
      else
        Except.error ("Unknown time window `" ++ tvTypeName v ++
          "`. Please use `week`, `month` or `year`.")
  else if op ∈ ["greater_than", "less_than", "greater_or_equal", "less_or_equal"] then
    if prop_type ≠ NUMBER then
      Except.error ("Filter `" ++ op ++ "` can only be applied to number attributes.")
    else if !(typeOk prop_type v) then
      Except.error (wrongTypeMsgT op prop_type v)
    else if op = "greater_than" then Except.ok ⟨col, CondExpr.gt v.toDB⟩
    else if op = "greater_or_equal" then Except.ok ⟨col, CondExpr.ge v.toDB⟩
    else if op = "less_than" then Except.ok ⟨col, CondExpr.lt v.toDB⟩
    else Except.ok ⟨col, CondExpr.le v.toDB⟩
  else if op = "starts_with" ∨ op = "ends_with" then
    if prop_type ≠ STRING then
      Except.error ("Filter `" ++ op ++ "` can only be applied to string attributes.")
    else if !(typeOk prop_type v) then
      Except.error (wrongTypeMsgT op prop_type v)
    else
      match v with
      | TValue.tS s =>
        if op = "starts_with" then Except.ok ⟨col, CondExpr.startsWith s⟩
        else Except.ok ⟨col, CondExpr.endsWith s⟩
      | _ => Except.error (wrongTypeMsgT op prop_type v)
  else if op = "contains" ∨ op = "does_not_contain" then
    if prop_type ≠ STRING ∧ prop_type ≠ MULTISTRING then
      Except.error ("Filter `" ++ op ++
        "` can only be applied to string or multi-strings attributes.")
    else if !(typeOk prop_type v) then
      Except.error (wrongTypeMsgT op prop_type v)
    else
      match v with
      | TValue.tS s =>
        if op = "contains" then Except.ok ⟨col, CondExpr.containsStr s⟩
        else Except.ok ⟨col, CondExpr.notContainsStr s⟩
      | _ => Except.error (wrongTypeMsgT op prop_type v)
  else if op = "contains_only" then
    if prop_type ≠ MULTISTRING then
      Except.error ("Filter `" ++ op ++
        "` can only be applied to multi-strings attributes.")
    else
      match v with
      | TValue.tS s => Except.ok ⟨col, CondExpr.eq (DBValue.s ("[" ++ s ++ "]"))⟩
      | _ => Except.error (wrongTypeMsgT op prop_type v)
  else
    Except.error ("Unknown filter condition (" ++ op ++ ")")

/-- Translation of `crud.make_condition`: type-specific operand
preprocessing followed by the operator dispatch; a thrown `WrongFilter`
becomes an `Except.error`. -/
def make_condition (cal : CalendarOps) (parse : String → Option DateTime)
    (now : DateTime) (col : Col) (op : String) (value : Value)
    (prop_type : String) : Except String ColCond :=
  match preprocessValue parse op value prop_type with
  | Except.error e => Except.error e
  | Except.ok v => makeConditionOp cal now col op v prop_type

/-- A raw Notion property as delivered by the upstream API, restricted to
the fields `notion_attr_to_db_attr` reads.  `Option` fields are `null`-able
in the payload; list fields are the JSON arrays whose emptiness the source
tests by truthiness. -/
inductive NotionAttr where
  | title (texts : List String)
  | checkbox (b : Bool)
  | rich_text (texts : List String)
  | stringVal (s : Option String)
  | number (n : Option Rat)
  | select (nm : Option String)
  | multi_select (names : List String)
  | people (ids : List String)
  | files (names : List String)
  | status (nm : String)
  | date (start : Option String)
  | url (s : Option String)
  | email (s : Option String)
  | phone_number (s : Option String)
  | formula (inner : NotionAttr)
  | relation
  | rollup
  | created_time (s : String)
  | created_by (uid : String)
  | last_edited_time (s : String)
  | last_edited_by (uid : String)
  deriving DecidableEq, Repr

/-- The `attr["type"]` tag of a property. -/
def NotionAttr.typeName : NotionAttr → String
  | NotionAttr.title _ => "title"
  | NotionAttr.checkbox _ => "checkbox"
  | NotionAttr.rich_text _ => "rich_text"
  | NotionAttr.stringVal _ => "string"
  | NotionAttr.number _ => "number"
  | NotionAttr.select _ => "select"
  | NotionAttr.multi_select _ => "multi_select"
  | NotionAttr.people _ => "people"
  | NotionAttr.files _ => "files"
  | NotionAttr.status _ => "status"
  | NotionAttr.date _ => "date"
  | NotionAttr.url _ => "url"
  | NotionAttr.email _ => "email"
  | NotionAttr.phone_number _ => "phone_number"
  | NotionAttr.formula _ => "formula"
  | NotionAttr.relation => "relation"
  | NotionAttr.rollup => "rollup"
  | NotionAttr.created_time _ => "created_time"
  | NotionAttr.created_by _ => "created_by"
  | NotionAttr.last_edited_time _ => "last_edited_time"
  | NotionAttr.last_edited_by _ => "last_edited_by"

/-- One row of the unified `attributes` table (`models.Attribute` after the
alembic revision merging the per-kind tables): exactly one value slot is
semantically active, selected by the kind flags; multistring values are
serialized JSON in the string slot.  Unset slots and flags default as the
`kwargs` dict of the source does. -/
structure Attribute where
  name : String
  type : String
  element_id : Int
  value_bool : Option Bool := none
  value_date : Option DateTime := none
  value_number : Option Rat := none
  value_string : Option String := none
  is_bool : Bool := false
  is_date : Bool := false
  is_number : Bool := false
  is_string : Bool := false
  is_multistring : Bool := false
  deriving DecidableEq, Repr

/-- Python `json.dumps` on a list of plain strings. -/
def jsonDumpsList (l : List String) : String :=
  "[" ++ String.intercalate ", " (l.map jsonDumps) ++ "]"

/-- Translation of `crud.notion_attr_to_db_attr`: convert one upstream
property into at most one attribute row.  `parse_date` is `crud.parse_date`
(ISO-8601 via `dateutil.isoparse`, normalised to UTC), a parameter because
it wraps an external parser; upstream timestamps are well-formed so it is
total here.  Python truthiness of the guarded values: a list is truthy iff
non-empty, a string iff non-empty, `None` is falsy, a `select` object is
truthy. -/
def notion_attr_to_db_attr (parse_date : String → DateTime) (name : String)
    (attr : NotionAttr) (element_id : Int) (attr_type : Option String) :
    Option Attribute :=
  let t := attr_type.getD attr.typeName
  match attr with
  | NotionAttr.title texts =>
    some { name := name, type := t, element_id := element_id,
           value_string := if texts.isEmpty then none else some (String.join texts),
           is_string := true }
  | NotionAttr.checkbox b =>
    some { name := name, type := t, element_id := element_id,
           value_bool := some b, is_bool := true }
  | NotionAttr.rich_text texts =>
    some { name := name, type := t, element_id := element_id,
           value_string := if texts.isEmpty then none else some (String.join texts),
           is_string := true }
  | NotionAttr.stringVal s =>
    some { name := name, type := t, element_id := element_id,
           value_string := s, is_string := true }
  | NotionAttr.number n =>
    some { name := name, type := t, element_id := element_id,
           value_number := n, is_number := true }
  | NotionAttr.select nm =>
    some { name := name, type := t, element_id := element_id,
           value_string := nm, is_string := true }
  | NotionAttr.multi_select names =>
    some { name := name, type := t, element_id := element_id,
           value_string := if names.isEmpty then none else some (jsonDumpsList names),
           is_multistring := true }
  | NotionAttr.people ids =>
    some { name := name, type := t, element_id := element_id,
           value_string := if ids.isEmpty then none else some (jsonDumpsList ids),
           is_multistring := true }
  | NotionAttr.files names =>
    some { name := name, type := t, element_id := element_id,
           value_string := if names.isEmpty then none else some (jsonDumpsList names),
           is_multistring := true }
  | NotionAttr.status nm =>
    some { name := name, type := t, element_id := element_id,
           value_string := some nm, is_string := true }
  | NotionAttr.date start =>
    some { name := name, type := t, element_id := element_id,
           value_date := start.map parse_date, is_date := true }
  | NotionAttr.url s =>
    some { name := name, type := t, element_id := element_id,
           value_string := match s with
             | none => none
             | some v => if v = "" then none else some v,
           is_string := true }
  | NotionAttr.email s =>
    some { name := name, type := t, element_id := element_id,
           value_string := match s with
             | none => none
             | some v => if v = "" then none else some v,
           is_string := true }
  | NotionAttr.phone_number s =>
    some { name := name, type := t, element_id := element_id,
           value_string := match s with
             | none => none
             | some v => if v = "" then none else some v,
           is_string := true }
  | NotionAttr.formula inner =>
    notion_attr_to_db_attr parse_date name inner element_id (some "formula")
  | NotionAttr.relation => none
  | NotionAttr.rollup => none
  | NotionAttr.created_time s =>
    some { name := name, type := t, element_id := element_id,
           value_date := some (parse_date s), is_date := true }
  | NotionAttr.created_by uid =>
    some { name := name, type := t, element_id := element_id,
           value_string := some uid, is_string := true }
  | NotionAttr.last_edited_time s =>
    some { name := name, type := t, element_id := element_id,
           value_date := some (parse_date s), is_date := true }
  | NotionAttr.last_edited_by uid =>
    some { name := name, type := t, element_id := element_id,
           value_string := some uid, is_string := true }

/-- One cached row of a Table (`models.Element`). -/
structure Element where
  id : Int
  notion_id : String
  table_id : Int
  last_edited : DateTime
  deriving DecidableEq, Repr

/-- A registered table (`models.Table`, with its integration token inlined,
which is all `get_data` reads from the relationship). -/
structure Table where
  id : Int
  table_id : String
  token : String
  deriving DecidableEq, Repr

/-- The relational store: element rows, unified attribute rows, and the next
autoincrement element id. -/
structure DB where
  elements : List Element
  attributes : List Attribute
  next_id : Int
  deriving DecidableEq, Repr

/-- The element rows of one table (the recurring
`query(Element).filter(Element.table_id == table_id)`). -/
def elementsOfTable (db : DB) (table_id : Int) : List Element :=
  db.elements.filter (fun e => decide (e.table_id = table_id))

/-- The attribute rows of one element. -/
def attributesOfElement (db : DB) (eid : Int) : List Attribute :=
  db.attributes.filter (fun a => decide (a.element_id = eid))

/-- Translation of `crud.last_table_element`: the element of the table with
the greatest `last_edited` (ORDER BY `last_edited` DESC, first row; the
first-encountered element wins a tie). -/
def last_table_element (db : DB) (table_id : Int) : Option Element :=
  (elementsOfTable db table_id).foldl
    (fun acc e =>
      match acc with
      | none => some e
      | some m => if dtLtb m.last_edited e.last_edited then some e else some m)
    none

/-- Translation of `crud.delete_elements_of_table`: delete the element rows
of the table; their attribute rows go with them through the `ON DELETE
CASCADE` foreign key (`pragma foreign_keys=ON`). -/
def delete_elements_of_table (db : DB) (table_id : Int) : DB :=
  let removed := (elementsOfTable db table_id).map (fun e => e.id)
  { elements := db.elements.filter (fun e => !(decide (e.table_id = table_id))),
    attributes := db.attributes.filter (fun a => !(removed.contains a.element_id)),
    next_id := db.next_id }

/-- Translation of `crud.get_element_by_notion_id` (the `notion_id` column
is unique across the store, so `first` is the only match). -/
def get_element_by_notion_id (db : DB) (notion_id : String) : Option Element :=
  db.elements.find? (fun e => decide (e.notion_id = notion_id))

/-- Translation of `crud.create_attribute`: convert and insert one
attribute row, skipping unsupported kinds. -/
def create_attribute (parse_date : String → DateTime) (db : DB) (name : String)
    (attr : NotionAttr) (element_id : Int) : DB :=
  match notion_attr_to_db_attr parse_date name attr element_id none with
  | none => db
  | some a => { db with attributes := db.attributes ++ [a] }

/-- Translation of `crud.create_element`: insert the element row (fresh
autoincrement id, parsed UTC timestamp), then create each of its
attributes in payload order. -/
def create_element (parse_date : String → DateTime) (db : DB) (notion_id : String)
    (table_id : Int) (last_edited : String)
    (attributes : List (String × NotionAttr)) : DB :=
  let el : Element :=
    ⟨db.next_id, notion_id, table_id, parse_date last_edited⟩
  let db1 : DB :=
    { elements := db.elements ++ [el], attributes := db.attributes,
      next_id := db.next_id + 1 }
  attributes.foldl (fun d p => create_attribute parse_date d p.1 p.2 el.id) db1

/-- Translation of `crud.update_element`: overwrite the
`last_edited` field of the element, delete every attribute row of the element, then recreate the
attributes from the new payload. -/
def update_element (parse_date : String → DateTime) (db : DB) (el : Element)
    (last_edited : String) (attributes : List (String × NotionAttr)) : DB :=
  let db1 : DB :=
    { elements := db.elements.map (fun e =>
        if e.id = el.id then { e with last_edited := parse_date last_edited } else e),
      attributes := db.attributes.filter (fun a => !(decide (a.element_id = el.id))),
      next_id := db.next_id }
  attributes.foldl (fun d p => create_attribute parse_date d p.1 p.2 el.id) db1

/-- Modelled from the spec: `crud.get_elements_of_table` is called by the
data-extraction path but its definition is absent from the source snapshot;
per the Attribute Store contract of the spec it is the CRUD lookup returning the
cached Elements of the Table, at most `limit` of them. -/
def get_elements_of_table (db : DB) (table_id : Int) (limit : Nat) : List Element :=
  (elementsOfTable db table_id).take limit

/-- A JSON cell of an extracted row (the per-kind `attr.value`; a multi
attribute contributes its serialized parts). -/
inductive CellValue where
  | b (x : Option Bool)
  | d (x : Option DateTime)
  | n (x : Option Rat)
  | s (x : Option String)
  | multi (x : Option String)
  deriving DecidableEq, Repr

/-- One extracted JSON row, built like the loops of `extract_data_from_db`:
boolean attributes first, then date, number, string and multi attributes
(the per-kind relations of the older model are the unified attribute rows
partitioned by kind flag; the parts of a multi attribute serialize into its
string slot, cf. the alembic revision dropping `stringparts`). -/
def elementRow (db : DB) (e : Element) : List (String × CellValue) :=
  let attrs := attributesOfElement db e.id
  (attrs.filter (fun a => a.is_bool)).map (fun a => (a.name, CellValue.b a.value_bool)) ++
  (attrs.filter (fun a => a.is_date)).map (fun a => (a.name, CellValue.d a.value_date)) ++
  (attrs.filter (fun a => a.is_number)).map (fun a => (a.name, CellValue.n a.value_number)) ++
  (attrs.filter (fun a => a.is_string)).map (fun a => (a.name, CellValue.s a.value_string)) ++
  (attrs.filter (fun a => a.is_multistring)).map (fun a => (a.name, CellValue.multi a.value_string))

/-- The element cap of the extraction path (`notion_cache.MAX_ELEMENTS`). -/
def MAX_ELEMENTS : Nat := 100

/-- The distinct condition raised by the extraction path
(`notion_cache.TooMuchElements`). -/
inductive ExtractError where
  | tooMuchElements
  deriving DecidableEq, Repr

/-- Translation of `notion_cache.extract_data_from_db`: fetch at most
`MAX_ELEMENTS + 1` elements, abort with the distinct condition if more than
`MAX_ELEMENTS` came back, else convert every element into a JSON row. -/
def extract_data_from_db (db : DB) (db_table_id : Int) :
    Except ExtractError (List (List (String × CellValue))) :=
  let db_elements := get_elements_of_table db db_table_id (MAX_ELEMENTS + 1)
  if db_elements.length > MAX_ELEMENTS then Except.error ExtractError.tooMuchElements
  else Except.ok (db_elements.map (elementRow db))

/-- The request parameters of `notion_cache.Parameters`. -/
structure Parameters where
  reset_cache : Bool := false
  update_cache : Bool := true
  calculate : Option String := none
  deriving DecidableEq, Repr

/-- One row object from the upstream paginated source. -/
structure NotionPage where
  id : String
  last_edited_time : String
  properties : List (String × NotionAttr)
  deriving DecidableEq, Repr

/-- Observable outcome of one `get_data` run: the final store, the list of
upstream queries that were made (each recorded by its optional
`last_edited_time after` watermark filter; `none` is an unfiltered full
sync; the empty list means upstream was never contacted), and the extracted
result. -/
structure SyncOutcome where
  db : DB
  calls : List (Option DateTime)
  result : Except ExtractError (List (List (String × CellValue)))

/-- Translation of `notion_cache.get_data`.  The Notion client and its page
drain (`iterate_paginated_api`) are the parameter `api`, mapping the
optional watermark filter of the query to the concatenation of all drained
pages. -/
def get_data (parse_date : String → DateTime)
    (api : Option DateTime → List NotionPage) (db : DB) (table : Table)
    (parameters : Parameters) : SyncOutcome :=
  let (db, parameters) :=
    if parameters.reset_cache then
      (delete_elements_of_table db table.id, { parameters with update_cache := true })
    else (db, parameters)
  let (db, calls) :=
    if parameters.update_cache then
      let db_latest_element :=
        if !parameters.reset_cache then last_table_element db table.id else none
      let filter_kwargs : Option DateTime :=
        db_latest_element.map (fun e => e.last_edited)
      let all_elements := api filter_kwargs
      let db := all_elements.foldl
        (fun d element =>
          match get_element_by_notion_id d element.id with
          | none =>
            create_element parse_date d element.id table.id
              element.last_edited_time element.properties
          | some db_element =>
            update_element parse_date d db_element
              element.last_edited_time element.properties)
        db
      (db, [filter_kwargs])
    else (db, [])
  ⟨db, calls, extract_data_from_db db table.id⟩

mutual
/-- A filter descriptor as sent by the user: a JSON object mapping attribute
names (or the reserved key `or`) to fields. -/
inductive FilterJson where
  | obj (entries : List (String × FilterField))

/-- The value under one key of a filter descriptor: an operator→operand map
for an attribute, or a list of sub-filters (only meaningful under `or`). -/
inductive FilterField where
  | opMap (ops : List (String × Value))
  | arr (clauses : List FilterJson)
end

/-- Python `"or" in filter and isinstance(filter["or"], list)` plus the
lookup: the clause list under the reserved key, when it is a list. -/
def findOr : List (String × FilterField) → Option (List FilterJson)
  | [] => none
  | (k, FilterField.arr clauses) :: rest =>
    if k = "or" then some clauses else findOr rest
  | (k, FilterField.opMap _) :: rest =>
    if k = "or" then none else findOr rest

theorem findOr_mem {entries : List (String × FilterField)} {cls : List FilterJson}
    (h : findOr entries = some cls) : ("or", FilterField.arr cls) ∈ entries := by
  induction entries with
  | nil => simp [findOr] at h
  | cons p rest ih =>
    obtain ⟨k, v⟩ := p
    cases v with
    | arr clauses =>
      by_cases hk : k = "or"
      · subst hk
        have h2 : clauses = cls := by simpa [findOr] using h
        subst h2
        exact List.mem_cons_self _ _
      · simp only [findOr, if_neg hk] at h
        exact List.mem_cons_of_mem _ (ih h)
    | opMap ops =>
      by_cases hk : k = "or"
      · subst hk
        simp [findOr] at h
      · simp only [findOr, if_neg hk] at h
        exact List.mem_cons_of_mem _ (ih h)

theorem sizeOf_clause_lt {entries : List (String × FilterField)}
    {cls : List FilterJson} {c : FilterJson}
    (h : findOr entries = some cls) (hc : c ∈ cls) :
    sizeOf c < sizeOf (FilterJson.obj entries) := by
  have h1 := List.sizeOf_lt_of_mem (findOr_mem h)
  have h2 := List.sizeOf_lt_of_mem hc
  simp only [Prod.mk.sizeOf_spec, FilterField.arr.sizeOf_spec] at h1
  simp only [FilterJson.obj.sizeOf_spec]
  omega

/-- The predicate tree compiled from a filter descriptor: an OR or AND of
sub-trees, and at the leaves the `Element.attributes.any(...)` EXISTS
condition: some attribute of the element has the given name and satisfies
every column condition. -/
inductive DBFilterNode where
  | orNode (fs : List DBFilterNode)
  | andNode (fs : List DBFilterNode)
  | anyAttr (nm : String) (conds : List ColCond)

/-- The `db_attributes` dict lookup of the reference element (a Python dict
comprehension keyed by name: the last attribute with a name wins). -/
def lastLookup (attrs : List Attribute) (nm : String) : Option Attribute :=
  attrs.foldl (fun acc a => if a.name = nm then some a else acc) none

/-- The body of the per-attribute loop of `create_db_filter` for one
`(attr_name, attr_filter)` entry: unknown names and list-shaped entries
error; otherwise each operator is compiled by `make_condition` with the
column and type tag selected by the kind flag of the reference attribute (an
attribute with no flag set contributes no conditions, as the elif chain
falls through). -/
def filterEntryConditions (cal : CalendarOps) (parse : String → Option DateTime)
    (now : DateTime) (refAttrs : List Attribute) (attr_name : String)
    (field : FilterField) : Except String DBFilterNode :=
  match lastLookup refAttrs attr_name with
  | none => Except.error ("Unknown attribute (" ++ attr_name ++ ")")
  | some dbAttr =>
    match field with
    | FilterField.arr _ =>
      Except.error ("Received a list instead of a dict for " ++ attr_name ++
        ". Only `or` filter can be a list, you should use a dict for individual filters.")
    | FilterField.opMap ops =>
      let build (col : Col) (pt : String) : Except String (List ColCond) :=
        ops.mapM (fun p => make_condition cal parse now col p.1 p.2 pt)
      (if dbAttr.is_bool then build Col.value_bool BOOL
       else if dbAttr.is_number then build Col.value_number NUMBER
       else if dbAttr.is_string then build Col.value_string STRING
       else if dbAttr.is_date then build Col.value_date DATE
       else if dbAttr.is_multistring then build Col.value_string MULTISTRING
       else Except.ok []).map
        (fun conds => DBFilterNode.anyAttr attr_name conds)

/-- The recursive core of `create_db_filter`, for a present filter and a
present reference element (in the source the recursion re-enters
`create_db_filter` with `db_element` already supplied; the wrapper below
does the one-time lookup): an `or` entry compiles each clause and joins
them with OR, otherwise the attribute entries are compiled and joined with
AND. -/
def create_db_filter_go (cal : CalendarOps) (parse : String → Option DateTime)
    (now : DateTime) (refAttrs : List Attribute) :
    FilterJson → Except String DBFilterNode
  | FilterJson.obj entries =>
    match hOr : findOr entries with
    | some clauses =>
      (clauses.attach.mapM (fun c =>
        create_db_filter_go cal parse now refAttrs c.1)).map DBFilterNode.orNode
    | none =>
      (entries.mapM (fun p =>
        filterEntryConditions cal parse now refAttrs p.1 p.2)).map DBFilterNode.andNode
termination_by f => sizeOf f
decreasing_by
  exact sizeOf_clause_lt hOr c.2

/-- Translation of `crud.create_db_filter`: with no filter, or with an empty
table (no reference element), the no-op predicate `none` is returned before
any validation; otherwise the descriptor is compiled against the reference
element (by default the most recently modified element of the table). -/
def create_db_filter (cal : CalendarOps) (parse : String → Option DateTime)
    (now : DateTime) (db : DB) (table_id : Int) (filter : Option FilterJson)
    (db_element : Option Element) : Except String (Option DBFilterNode) :=
  let db_element :=
    match db_element with
    | none => last_table_element db table_id
    | some e => some e
  match filter, db_element with
  | none, _ => Except.ok none
  | some _, none => Except.ok none
  | some f, some e =>
    (create_db_filter_go cal parse now (attributesOfElement db e.id) f).map
      (fun n => some n)

/-- Content of a named column of an attribute row. -/
def getCol (a : Attribute) : Col → Option DBValue
  | Col.value_bool => a.value_bool.map DBValue.b
  | Col.value_number => a.value_number.map DBValue.n
  | Col.value_string => a.value_string.map DBValue.s
  | Col.value_date => a.value_date.map DBValue.d

/-- Evaluate a compiled predicate tree on one element of the store. -/
def evalFilterNode (db : DB) : DBFilterNode → Element → Bool
  | DBFilterNode.orNode fs, e => fs.attach.any (fun f => evalFilterNode db f.1 e)
  | DBFilterNode.andNode fs, e => fs.attach.all (fun f => evalFilterNode db f.1 e)
  | DBFilterNode.anyAttr nm conds, e =>
    (attributesOfElement db e.id).any (fun a =>
      decide (a.name = nm) && conds.all (fun cc => evalCond cc.cond (getCol a cc.col)))
termination_by n _ => sizeOf n
decreasing_by
  · have := List.sizeOf_lt_of_mem f.2
    simp only [DBFilterNode.orNode.sizeOf_spec]
    omega
  · have := List.sizeOf_lt_of_mem f.2
    simp only [DBFilterNode.andNode.sizeOf_spec]
    omega

/-- SQL `SUM` over a nullable numeric column: NULL rows are skipped, and the
result is NULL when no non-NULL row exists. -/
def sqlSum (xs : List (Option Rat)) : Option Rat :=
  match xs.filterMap id with
  | [] => none
  | l => some l.sum

/-- SQL `MIN` over a nullable numeric column. -/
def sqlMin (xs : List (Option Rat)) : Option Rat :=
  match xs.filterMap id with
  | [] => none
  | y :: ys => some (ys.foldl min y)

/-- SQL `MAX` over a nullable numeric column. -/
def sqlMax (xs : List (Option Rat)) : Option Rat :=
  match xs.filterMap id with
  | [] => none
  | y :: ys => some (ys.foldl max y)

/-- SQL `AVG` over a nullable numeric column: the sum of the non-NULL values
divided by their count (NULL rows are excluded from the denominator). -/
def sqlAvg (xs : List (Option Rat)) : Option Rat :=
  match xs.filterMap id with
  | [] => none
  | l => some (l.sum / (l.length : Rat))

/-- SQL `COUNT(col)`: the number of non-NULL rows. -/
def sqlCount {α : Type} (xs : List (Option α)) : Nat :=
  (xs.filterMap id).length

/-- SQL `COUNT(DISTINCT col)`: the number of distinct non-NULL values. -/
def sqlCountDistinct {α : Type} [DecidableEq α] (xs : List (Option α)) : Nat :=
  (xs.filterMap id).dedup.length

/-- The `crud.NUMBER_OP` dispatch table mapping an aggregation name to the
SQL aggregate applied to the `value_number` column (only ever read at the
four keys below). -/
def NUMBER_OP (nm : String) : List (Option Rat) → Option Rat :=
  if nm = "sum" then sqlSum
  else if nm = "min" then sqlMin
  else if nm = "max" then sqlMax
  else if nm = "average" then sqlAvg
  else fun _ => none

/-- The shape of the query built by `create_base_db_query`: every attribute
row, a numeric aggregation, or a (possibly distinct) count. -/
inductive QueryShape where
  | raw
  | numericAgg (fn : String)
  | countAgg (isDistinct : Bool)
  deriving DecidableEq, Repr

/-- Translation of the branch structure of `crud.create_base_db_query`:
no descriptors → the raw per-row query; `group_by` without `calculate` →
error; a known aggregation name → the corresponding shape; anything else →
error. -/
def create_base_db_query (calculate group_by : Option String) :
    Except String QueryShape :=
  match calculate, group_by with
  | none, none => Except.ok QueryShape.raw
  | none, some _ =>
    Except.error
      "Can\x27t group_by if not aggregation function is given through `calculate`"
  | some c, _ =>
    if c ∈ ["sum", "min", "max", "average"] then
      Except.ok (QueryShape.numericAgg c)
    else if c ∈ ["count", "count_unique"] then
      Except.ok (QueryShape.countAgg (c = "count_unique"))
    else Except.error ("Unknown calculate function : " ++ c)

/-- The SQL `case` selecting the active value slot of an attribute, used as
the group key. -/
def caseValue (a : Attribute) : Option DBValue :=
  if a.is_bool then a.value_bool.map DBValue.b
  else if a.is_date then a.value_date.map DBValue.d
  else if a.is_number then a.value_number.map DBValue.n
  else if a.is_string then a.value_string.map DBValue.s
  else if a.is_multistring then a.value_string.map DBValue.s
  else none

/-- The `case(count(distinct col) = 1, col)` columns of the numeric
aggregation SELECT: a non-numeric column passes through only when exactly
one distinct non-NULL value exists in the group, else NULL. -/
def uniquePass {α : Type} [DecidableEq α] (xs : List (Option α)) : Option α :=
  match (xs.filterMap id).dedup with
  | [y] => some y
  | _ => none

/-- One row of a query result: a raw attribute row, a numeric-aggregation
row, or a count row (whose four value columns are the per-slot counts). -/
inductive ResultRow where
  | raw (a : Attribute)
  | agg (group : Option DBValue) (nm : String) (value_bool : Option Bool)
      (value_date : Option DateTime) (value_number : Option Rat)
      (value_string : Option String) (is_bool is_date is_number is_string is_multistring : Bool)
  | count (group : Option DBValue) (nm : String)
      (value_bool value_date value_number value_string : Nat)
      (is_bool is_date is_number is_string is_multistring : Bool)
  deriving DecidableEq, Repr

/-- Translation of `crud.get_attributes_of_table`: build the query shape,
compile the optional filter, restrict to the elements of the table that
pass it, and run the shape, truncating the produced rows to `limit`
(`query.limit(limit).all()`).  The grouper subquery maps each element to
its group key: the active slot of the `group_by` attribute, or the table id
(`Element.table_id.label("group_id")`, embedded here as a number) for the
implicit single group over elements that have at least one attribute.
Aggregated rows are keyed by `(name, group)`; the kind flags of an
aggregated row are taken from a row of its group, as the bare columns of
the grouped SELECT are. -/
def get_attributes_of_table (cal : CalendarOps) (parse : String → Option DateTime)
    (now : DateTime) (db : DB) (table_id : Int) (calculate : Option String)
    (filter : Option FilterJson) (group_by : Option String) (limit : Nat) :
    Except String (List ResultRow) := do
  let shape ← create_base_db_query calculate group_by
  let db_filter ← create_db_filter cal parse now db table_id filter none
  let keep : Element → Bool := fun e =>
    decide (e.table_id = table_id) &&
      (match db_filter with
       | none => true
       | some f => evalFilterNode db f e)
  let els := db.elements.filter keep
  match shape with
  | QueryShape.raw =>
    pure (((db.attributes.filter (fun a =>
      els.any (fun e => decide (e.id = a.element_id)))).take limit).map ResultRow.raw)
  | QueryShape.numericAgg c =>
    let grows : List (Int × Option DBValue) :=
      match group_by with
      | some g =>
        (elementsOfTable db table_id).flatMap (fun e =>
          ((attributesOfElement db e.id).filter (fun a => decide (a.name = g))).map
            (fun a => (e.id, caseValue a)))
      | none =>
        ((elementsOfTable db table_id).filter
          (fun e => !(attributesOfElement db e.id).isEmpty)).map
          (fun e => (e.id, some (DBValue.n (e.table_id : Int))))
    let rows : List (Option DBValue × Attribute) :=
      grows.flatMap (fun p =>
        if els.any (fun e => decide (e.id = p.1)) then
          (db.attributes.filter (fun a => decide (a.element_id = p.1))).map
            (fun a => (p.2, a))
        else [])
    let keys := (rows.map (fun r => (r.2.name, r.1))).dedup
    pure ((keys.map (fun k =>
      let attrs := (rows.filter (fun r =>
        decide (r.2.name = k.1) && decide (r.1 = k.2))).map (fun r => r.2)
      ResultRow.agg k.2 k.1
        (uniquePass (attrs.map (fun a => a.value_bool)))
        (uniquePass (attrs.map (fun a => a.value_date)))
        (NUMBER_OP c (attrs.map (fun a => a.value_number)))
        (uniquePass (attrs.map (fun a => a.value_string)))
        (attrs.head?.elim false (fun a => a.is_bool))
        (attrs.head?.elim false (fun a => a.is_date))
        (attrs.head?.elim false (fun a => a.is_number))
        (attrs.head?.elim false (fun a => a.is_string))
        (attrs.head?.elim false (fun a => a.is_multistring)))).take limit)
  | QueryShape.countAgg isDistinct =>
    let grows : List (Int × Option DBValue) :=
      match group_by with
      | some g =>
        (elementsOfTable db table_id).flatMap (fun e =>
          ((attributesOfElement db e.id).filter (fun a => decide (a.name = g))).map
            (fun a => (e.id, caseValue a)))
      | none =>
        ((elementsOfTable db table_id).filter
          (fun e => !(attributesOfElement db e.id).isEmpty)).map
          (fun e => (e.id, some (DBValue.n (e.table_id : Int))))
    let rows : List (Option DBValue × Attribute) :=
      grows.flatMap (fun p =>
        if els.any (fun e => decide (e.id = p.1)) then
          (db.attributes.filter (fun a => decide (a.element_id = p.1))).map
            (fun a => (p.2, a))
        else [])
    let keys := (rows.map (fun r => (r.2.name, r.1))).dedup
    let cnt : List (Option Bool) → Nat := fun xs =>
      if isDistinct then sqlCountDistinct xs else sqlCount xs
    let cntD : List (Option DateTime) → Nat := fun xs =>
      if isDistinct then sqlCountDistinct xs else sqlCount xs
    let cntN : List (Option Rat) → Nat := fun xs =>
      if isDistinct then sqlCountDistinct xs else sqlCount xs
    let cntS : List (Option String) → Nat := fun xs =>
      if isDistinct then sqlCountDistinct xs else sqlCount xs
    pure ((keys.map (fun k =>
      let attrs := (rows.filter (fun r =>
        decide (r.2.name = k.1) && decide (r.1 = k.2))).map (fun r => r.2)
      ResultRow.count k.2 k.1
        (cnt (attrs.map (fun a => a.value_bool)))
        (cntD (attrs.map (fun a => a.value_date)))
        (cntN (attrs.map (fun a => a.value_number)))
        (cntS (attrs.map (fun a => a.value_string)))
        (attrs.head?.elim false (fun a => a.is_bool))
        (attrs.head?.elim false (fun a => a.is_date))
        (attrs.head?.elim false (fun a => a.is_number))
        (attrs.head?.elim false (fun a => a.is_string))
        (attrs.head?.elim false (fun a => a.is_multistring)))).take limit)

/-- The allowed (kind, operator) table of the filter
catalogue (§4.4). -/
def allowedOps (pt : String) : List String :=
  if pt = BOOL then ["is", "is_not"]
  else if pt = NUMBER then
    ["is", "is_not", "greater_than", "less_than", "greater_or_equal",
     "less_or_equal", "is_empty"]
  else if pt = STRING then
    ["is", "is_not", "starts_with", "ends_with", "contains",
     "does_not_contain", "is_empty"]
  else if pt = DATE then
    ["is", "is_not", "after", "on_or_after", "before", "on_or_before",
     "is_empty", "past", "next", "this"]
  else if pt = MULTISTRING then
    ["contains", "does_not_contain", "contains_only", "is_empty"]
  else []

/-- Whether an embedded call raised `WrongFilter`. -/
def isWrongFilter {α : Type} : Except String α → Bool
  | Except.error _ => true
  | Except.ok _ => false

/-! Concrete instances of the external collaborators, used by the witness
and counterexample theorems. -/

/-- Degenerate calendar arithmetic (no claim below depends on the month and
year operations, which model an external library). -/
def cal0 : CalendarOps := ⟨fun _ d => d, fun _ d => d, fun d => d, fun d => d⟩

/-- A date parser accepting nothing (no claim below exercises parsing). -/
def parse0 : String → Option DateTime := fun _ => none

/-- A total timestamp parser for upstream payload dates. -/
def parseDate0 : String → DateTime := fun _ => ⟨0, 0⟩

/-- Thursday 1970-01-01, 12:00:00 UTC. -/
def now0 : DateTime := ⟨0, 43200⟩

/-! Order facts about datetimes. -/

theorem dtLeb_refl (a : DateTime) : dtLeb a a = true := by
  simp [dtLeb]

theorem dtLeb_of_not_dtLtb {a b : DateTime} (h : dtLtb a b = false) :
    dtLeb b a = true := by
  simp only [dtLtb, Bool.or_eq_false_iff, Bool.and_eq_false_iff] at h
  simp only [dtLeb, Bool.or_eq_true, Bool.and_eq_true, decide_eq_true_eq,
    decide_eq_false_iff_not] at *
  omega

theorem dtLeb_trans {a b c : DateTime} (h1 : dtLeb a b = true)
    (h2 : dtLeb b c = true) : dtLeb a c = true := by
  simp only [dtLeb, Bool.or_eq_true, Bool.and_eq_true, decide_eq_true_eq] at *
  omega

theorem dtLeb_of_dtLtb {a b : DateTime} (h : dtLtb a b = true) :
    dtLeb a b = true := by
  simp only [dtLtb, dtLeb, Bool.or_eq_true, Bool.and_eq_true,
    decide_eq_true_eq] at *
  omega

/-! The element returned by `last_table_element` is a cached element of the
table carrying the greatest `last_edited` timestamp. -/

theorem foldl_last_spec (step : Option Element → Element → Option Element)
    (hstep : step = fun acc e =>
      match acc with
      | none => some e
      | some m => if dtLtb m.last_edited e.last_edited then some e else some m)
    (l : List Element) (acc : Element) :
    ∃ r, l.foldl step (some acc) = some r ∧ (r = acc ∨ r ∈ l) ∧
      dtLeb acc.last_edited r.last_edited = true ∧
      ∀ x ∈ l, dtLeb x.last_edited r.last_edited = true := by
  induction l generalizing acc with
  | nil => exact ⟨acc, rfl, Or.inl rfl, dtLeb_refl _, by simp⟩
  | cons y ys ih =>
    by_cases hlt : dtLtb acc.last_edited y.last_edited = true
    · have hfold : (y :: ys).foldl step (some acc) = ys.foldl step (some y) := by
        simp [hstep, hlt]
      obtain ⟨r, hr, hmem, hle, hall⟩ := ih y
      refine ⟨r, by rw [hfold]; exact hr, ?_, ?_, ?_⟩
      · rcases hmem with h | h
        · exact Or.inr (h ▸ List.mem_cons_self _ _)
        · exact Or.inr (List.mem_cons_of_mem _ h)
      · exact dtLeb_trans (dtLeb_of_dtLtb hlt) hle
      · intro x hx
        rcases List.mem_cons.mp hx with h | h
        · exact h ▸ hle
        · exact hall x h
    · have hlt2 : dtLtb acc.last_edited y.last_edited = false := by
        simpa using hlt
      have hfold : (y :: ys).foldl step (some acc) = ys.foldl step (some acc) := by
        simp [hstep, hlt2]
      obtain ⟨r, hr, hmem, hle, hall⟩ := ih acc
      refine ⟨r, by rw [hfold]; exact hr, ?_, hle, ?_⟩
      · rcases hmem with h | h
        · exact Or.inl h
        · exact Or.inr (List.mem_cons_of_mem _ h)
      · intro x hx
        rcases List.mem_cons.mp hx with h | h
        · exact h ▸ dtLeb_trans (dtLeb_of_not_dtLtb hlt2) hle
        · exact hall x h

theorem last_table_element_spec (db : DB) (t : Int)
    (h : elementsOfTable db t ≠ []) :
    ∃ r, last_table_element db t = some r ∧ r ∈ elementsOfTable db t ∧
      ∀ x ∈ elementsOfTable db t, dtLeb x.last_edited r.last_edited = true := by
  unfold last_table_element
  cases he : elementsOfTable db t with
  | nil => exact absurd he h
  | cons y ys =>
    obtain ⟨r, hr, hmem, hley, hall⟩ := foldl_last_spec _ rfl ys y
    refine ⟨r, ?_, ?_, ?_⟩
    · rw [List.foldl_cons]
      exact hr
    · rcases hmem with h2 | h2
      · exact h2 ▸ List.mem_cons_self _ _
      · exact List.mem_cons_of_mem _ h2
    · intro x hx
      rcases List.mem_cons.mp hx with h2 | h2
      · exact h2 ▸ hley
      · exact hall x h2

theorem last_table_element_none_iff (db : DB) (t : Int) :
    last_table_element db t = none ↔ elementsOfTable db t = [] := by
  constructor
  · intro h
    by_contra hne
    obtain ⟨r, hr, -, -⟩ := last_table_element_spec db t hne
    rw [h] at hr
    exact Option.noConfusion hr
  · intro h
    unfold last_table_element
    rw [h]
    rfl

/-- C10: if the Table has zero cached Elements, the filter compiler returns
the no-op predicate `none` for every filter descriptor, malformed ones
included, raising no validation error — validation runs only when a
reference element exists. -/
theorem claim_C10 (cal : CalendarOps) (parse : String → Option DateTime)
    (now : DateTime) (db : DB) (table_id : Int)
    (h : elementsOfTable db table_id = []) (filter : Option FilterJson) :
    create_db_filter cal parse now db table_id filter none = Except.ok none := by
  have hl : last_table_element db table_id = none :=
    (last_table_element_none_iff db table_id).mpr h
  unfold create_db_filter
  cases filter with
  | none => rfl
  | some f => simp [hl]

/-- A store whose only element belongs to table 5 (so table 9 is empty). -/
def dbOtherTable : DB :=
  ⟨[⟨1, "x", 5, ⟨0, 0⟩⟩],
   [{ name := "a", type := "checkbox", element_id := 1, value_bool := some true,
      is_bool := true }], 2⟩

/-- A thoroughly malformed filter: unknown attribute, operator disallowed
for every kind, operand of the wrong type. -/
def malformedFilter : FilterJson :=
  FilterJson.obj [("nonexistent", FilterField.opMap [("starts_with", Value.vBool true)])]

theorem claim_C10_witness :
    create_db_filter cal0 parse0 now0 dbOtherTable 9 (some malformedFilter) none =
      Except.ok none :=
  claim_C10 cal0 parse0 now0 dbOtherTable 9 (by rfl) (some malformedFilter)

/-- C7 counterexample: at the fixed wall-clock time Thursday 1970-01-01
12:00 UTC, `this week` compiles to `BETWEEN` the Monday 1969-12-29 00:00
(day −3) and the following Monday 1970-01-05 00:00 (day 4), and the
predicate accepts the instant exactly at the following Monday 00:00 — the
instant the claim requires to be excluded (the interval is closed, not
half-open). -/
theorem claim_C7_counterexample :
    make_condition cal0 parse0 now0 Col.value_date "this" (Value.vStr "week") DATE =
      Except.ok ⟨Col.value_date,
        CondExpr.between (DBValue.d ⟨-3, 0⟩) (DBValue.d ⟨4, 0⟩)⟩ ∧
    isMondayMidnight ⟨-3, 0⟩ = true ∧
    isMondayMidnight ⟨4, 0⟩ = true ∧
    dtLtb now0 ⟨4, 0⟩ = true ∧
    evalCond (CondExpr.between (DBValue.d ⟨-3, 0⟩) (DBValue.d ⟨4, 0⟩))
      (some (DBValue.d ⟨4, 0⟩)) = true :=
  ⟨rfl, rfl, rfl, rfl, rfl⟩

/-- C7 as amended: for every wall-clock `now`, the compiled `this week`
condition is a `BETWEEN` whose lower bound is the Monday-midnight day
boundary of the current week (it is a Monday 00:00, lies at or before
`now`, and `now` falls before the bound plus seven days) and whose upper
bound is exactly seven days later; the predicate accepts exactly the dates
of the CLOSED interval — both endpoints included, so the instant at the
following Monday 00:00 is accepted, unlike the half-open interval of the
original claim. -/
theorem claim_C7_amended (cal : CalendarOps) (parse : String → Option DateTime)
    (now : DateTime) (col : Col) :
    make_condition cal parse now col "this" (Value.vStr "week") DATE =
      Except.ok ⟨col, CondExpr.between
        (DBValue.d ⟨now.days - (now.days + 3) % 7, 0⟩)
        (DBValue.d ⟨now.days - (now.days + 3) % 7 + 7, 0⟩)⟩ ∧
    isMondayMidnight ⟨now.days - (now.days + 3) % 7, 0⟩ = true ∧
    dtLeb ⟨now.days - (now.days + 3) % 7, 0⟩ now = true ∧
    dtLtb now ⟨now.days - (now.days + 3) % 7 + 7, 0⟩ = true ∧
    (∀ t : DateTime,
      evalCond (CondExpr.between
          (DBValue.d ⟨now.days - (now.days + 3) % 7, 0⟩)
          (DBValue.d ⟨now.days - (now.days + 3) % 7 + 7, 0⟩))
        (some (DBValue.d t)) =
      (dtLeb ⟨now.days - (now.days + 3) % 7, 0⟩ t &&
       dtLeb t ⟨now.days - (now.days + 3) % 7 + 7, 0⟩)) := by
  refine ⟨rfl, ?_, ?_, ?_, fun t => rfl⟩
  · simp only [isMondayMidnight, Bool.and_eq_true, decide_eq_true_eq]
    constructor
    · trivial
    · omega
  · simp only [dtLeb, Bool.or_eq_true, Bool.and_eq_true, decide_eq_true_eq]
    omega
  · simp only [dtLtb, Bool.or_eq_true, Bool.and_eq_true, decide_eq_true_eq]
    omega

/-! The allowed operator table, evaluated at the five kinds. -/

theorem allowedOps_BOOL : allowedOps BOOL = ["is", "is_not"] := rfl

theorem allowedOps_NUMBER :
    allowedOps NUMBER = ["is", "is_not", "greater_than", "less_than",
      "greater_or_equal", "less_or_equal", "is_empty"] := rfl

theorem allowedOps_STRING :
    allowedOps STRING = ["is", "is_not", "starts_with", "ends_with",
      "contains", "does_not_contain", "is_empty"] := rfl

theorem allowedOps_DATE :
    allowedOps DATE = ["is", "is_not", "after", "on_or_after", "before",
      "on_or_before", "is_empty", "past", "next", "this"] := rfl

theorem allowedOps_MULTISTRING :
    allowedOps MULTISTRING =
      ["contains", "does_not_contain", "contains_only", "is_empty"] := rfl

theorem makeConditionOp_disallowed (cal : CalendarOps) (now : DateTime)
    (col : Col) (op : String) (v : TValue) (pt : String)
    (hpt : pt ∈ [BOOL, NUMBER, STRING, DATE, MULTISTRING])
    (hop : op ∉ allowedOps pt) :
    isWrongFilter (makeConditionOp cal now col op v pt) = true := by
  simp only [List.mem_cons, List.not_mem_nil, or_false] at hpt
  rcases hpt with rfl | rfl | rfl | rfl | rfl
  · -- pt = BOOL
    unfold makeConditionOp
    by_cases h1 : op = "is" ∨ op = "is_not"
    · exfalso
      apply hop
      rw [allowedOps_BOOL]
      simp only [List.mem_cons, List.not_mem_nil, or_false]
      tauto
    · rw [if_neg h1]
      by_cases h2 : op = "is_empty"
      · rw [if_pos h2, if_pos rfl]; rfl
      · rw [if_neg h2]
        by_cases h3 : op ∈ ["after", "on_or_after", "before", "on_or_before",
            "past", "next", "this"]
        · rw [if_pos h3, if_pos (show BOOL ≠ DATE by decide)]; rfl
        · rw [if_neg h3]
          by_cases h4 : op ∈ ["greater_than", "less_than", "greater_or_equal",
              "less_or_equal"]
          · rw [if_pos h4, if_pos (show BOOL ≠ NUMBER by decide)]; rfl
          · rw [if_neg h4]
            by_cases h5 : op = "starts_with" ∨ op = "ends_with"
            · rw [if_pos h5, if_pos (show BOOL ≠ STRING by decide)]; rfl
            · rw [if_neg h5]
              by_cases h6 : op = "contains" ∨ op = "does_not_contain"
              · rw [if_pos h6,
                  if_pos (show BOOL ≠ STRING ∧ BOOL ≠ MULTISTRING by decide)]
                rfl
              · rw [if_neg h6]
                by_cases h7 : op = "contains_only"
                · rw [if_pos h7, if_pos (show BOOL ≠ MULTISTRING by decide)]; rfl
                · rw [if_neg h7]; rfl
  · -- pt = NUMBER
    unfold makeConditionOp
    by_cases h1 : op = "is" ∨ op = "is_not"
    · exfalso
      apply hop
      rw [allowedOps_NUMBER]
      simp only [List.mem_cons, List.not_mem_nil, or_false]
      tauto
    · rw [if_neg h1]
      by_cases h2 : op = "is_empty"
      · exfalso
        apply hop
        rw [allowedOps_NUMBER]
        simp only [List.mem_cons, List.not_mem_nil, or_false]
        tauto
      · rw [if_neg h2]
        by_cases h3 : op ∈ ["after", "on_or_after", "before", "on_or_before",
            "past", "next", "this"]
        · rw [if_pos h3, if_pos (show NUMBER ≠ DATE by decide)]; rfl
        · rw [if_neg h3]
          by_cases h4 : op ∈ ["greater_than", "less_than", "greater_or_equal",
              "less_or_equal"]
          · exfalso
            apply hop
            rw [allowedOps_NUMBER]
            simp only [List.mem_cons, List.not_mem_nil, or_false] at h4 ⊢
            tauto
          · rw [if_neg h4]
            by_cases h5 : op = "starts_with" ∨ op = "ends_with"
            · rw [if_pos h5, if_pos (show NUMBER ≠ STRING by decide)]; rfl
            · rw [if_neg h5]
              by_cases h6 : op = "contains" ∨ op = "does_not_contain"
              · rw [if_pos h6,
                  if_pos (show NUMBER ≠ STRING ∧ NUMBER ≠ MULTISTRING by decide)]
                rfl
              · rw [if_neg h6]
                by_cases h7 : op = "contains_only"
                · rw [if_pos h7, if_pos (show NUMBER ≠ MULTISTRING by decide)]; rfl
                · rw [if_neg h7]; rfl
  · -- pt = STRING
    unfold makeConditionOp
    by_cases h1 : op = "is" ∨ op = "is_not"
    · exfalso
      apply hop
      rw [allowedOps_STRING]
      simp only [List.mem_cons, List.not_mem_nil, or_false]
      tauto
    · rw [if_neg h1]
      by_cases h2 : op = "is_empty"
      · exfalso
        apply hop
        rw [allowedOps_STRING]
        simp only [List.mem_cons, List.not_mem_nil, or_false]
        tauto
      · rw [if_neg h2]
        by_cases h3 : op ∈ ["after", "on_or_after", "before", "on_or_before",
            "past", "next", "this"]
        · rw [if_pos h3, if_pos (show STRING ≠ DATE by decide)]; rfl
        · rw [if_neg h3]
          by_cases h4 : op ∈ ["greater_than", "less_than", "greater_or_equal",
              "less_or_equal"]
          · rw [if_pos h4, if_pos (show STRING ≠ NUMBER by decide)]; rfl
          · rw [if_neg h4]
            by_cases h5 : op = "starts_with" ∨ op = "ends_with"
            · exfalso
              apply hop
              rw [allowedOps_STRING]
              simp only [List.mem_cons, List.not_mem_nil, or_false]
              tauto
            · rw [if_neg h5]
              by_cases h6 : op = "contains" ∨ op = "does_not_contain"
              · exfalso
                apply hop
                rw [allowedOps_STRING]
                simp only [List.mem_cons, List.not_mem_nil, or_false]
                tauto
              · rw [if_neg h6]
                by_cases h7 : op = "contains_only"
                · rw [if_pos h7, if_pos (show STRING ≠ MULTISTRING by decide)]; rfl
                · rw [if_neg h7]; rfl
  · -- pt = DATE
    unfold makeConditionOp
    by_cases h1 : op = "is" ∨ op = "is_not"
    · exfalso
      apply hop
      rw [allowedOps_DATE]
      simp only [List.mem_cons, List.not_mem_nil, or_false]
      tauto
    · rw [if_neg h1]
      by_cases h2 : op = "is_empty"
      · exfalso
        apply hop
        rw [allowedOps_DATE]
        simp only [List.mem_cons, List.not_mem_nil, or_false]
        tauto
      · rw [if_neg h2]
        by_cases h3 : op ∈ ["after", "on_or_after", "before", "on_or_before",
            "past", "next", "this"]
        · exfalso
          apply hop
          rw [allowedOps_DATE]
          simp only [List.mem_cons, List.not_mem_nil, or_false] at h3 ⊢
          tauto
        · rw [if_neg h3]
          by_cases h4 : op ∈ ["greater_than", "less_than", "greater_or_equal",
              "less_or_equal"]
          · rw [if_pos h4, if_pos (show DATE ≠ NUMBER by decide)]; rfl
          · rw [if_neg h4]
            by_cases h5 : op = "starts_with" ∨ op = "ends_with"
            · rw [if_pos h5, if_pos (show DATE ≠ STRING by decide)]; rfl
            · rw [if_neg h5]
              by_cases h6 : op = "contains" ∨ op = "does_not_contain"
              · rw [if_pos h6,
                  if_pos (show DATE ≠ STRING ∧ DATE ≠ MULTISTRING by decide)]
                rfl
              · rw [if_neg h6]
                by_cases h7 : op = "contains_only"
                · rw [if_pos h7, if_pos (show DATE ≠ MULTISTRING by decide)]; rfl
                · rw [if_neg h7]; rfl
  · -- pt = MULTISTRING
    unfold makeConditionOp
    by_cases h1 : op = "is" ∨ op = "is_not"
    · rw [if_pos h1, if_pos rfl]; rfl
    · rw [if_neg h1]
      by_cases h2 : op = "is_empty"
      · exfalso
        apply hop
        rw [allowedOps_MULTISTRING]
        simp only [List.mem_cons, List.not_mem_nil, or_false]
        tauto
      · rw [if_neg h2]
        by_cases h3 : op ∈ ["after", "on_or_after", "before", "on_or_before",
            "past", "next", "this"]
        · rw [if_pos h3, if_pos (show MULTISTRING ≠ DATE by decide)]; rfl
        · rw [if_neg h3]
          by_cases h4 : op ∈ ["greater_than", "less_than", "greater_or_equal",
              "less_or_equal"]
          · rw [if_pos h4, if_pos (show MULTISTRING ≠ NUMBER by decide)]; rfl
          · rw [if_neg h4]
            by_cases h5 : op = "starts_with" ∨ op = "ends_with"
            · rw [if_pos h5, if_pos (show MULTISTRING ≠ STRING by decide)]; rfl
            · rw [if_neg h5]
              by_cases h6 : op = "contains" ∨ op = "does_not_contain"
              · exfalso
                apply hop
                rw [allowedOps_MULTISTRING]
                simp only [List.mem_cons, List.not_mem_nil, or_false]
                tauto
              · rw [if_neg h6]
                by_cases h7 : op = "contains_only"
                · exfalso
                  apply hop
                  rw [allowedOps_MULTISTRING]
                  simp only [List.mem_cons, List.not_mem_nil, or_false]
                  tauto
                · rw [if_neg h7]; rfl

/-- C6: for every (kind, operator) pair outside the allowed operator table
of the filter catalogue, `make_condition` raises the filter-validation
error for every operand; in particular `is_empty` on a boolean attribute
errors, and `is`/`is_not` on a multistring attribute error with the message
directing the caller to `contains`/`does_not_contain`. -/
theorem claim_C6 (cal : CalendarOps) (parse : String → Option DateTime)
    (now : DateTime) (col : Col) (op : String) (value : Value) (pt : String)
    (hpt : pt ∈ [BOOL, NUMBER, STRING, DATE, MULTISTRING])
    (hop : op ∉ allowedOps pt) :
    isWrongFilter (make_condition cal parse now col op value pt) = true ∧
    (∀ s : String,
      make_condition cal parse now col "is" (Value.vStr s) MULTISTRING =
        Except.error "Multi-string attribute can\x27t use `is` filters. Use `contains`/`does_not_contain` instead") ∧
    (∀ s : String,
      make_condition cal parse now col "is_not" (Value.vStr s) MULTISTRING =
        Except.error "Multi-string attribute can\x27t use `is_not` filters. Use `contains`/`does_not_contain` instead") ∧
    (∀ w : Value,
      make_condition cal parse now col "is_empty" w BOOL =
        Except.error "Boolean attribute can never be empty. Can\x27t use `is_empty` filter.") := by
  refine ⟨?_, fun s => rfl, fun s => rfl, fun w => ?_⟩
  · unfold make_condition
    cases hp : preprocessValue parse op value pt with
    | error e => rfl
    | ok v => exact makeConditionOp_disallowed cal now col op v pt hpt hop
  · cases w <;> rfl

theorem claim_C6_witness :
    isWrongFilter (make_condition cal0 parse0 now0 Col.value_bool "starts_with"
      (Value.vStr "x") BOOL) = true ∧
    (∀ s : String,
      make_condition cal0 parse0 now0 Col.value_bool "is" (Value.vStr s) MULTISTRING =
        Except.error "Multi-string attribute can\x27t use `is` filters. Use `contains`/`does_not_contain` instead") ∧
    (∀ s : String,
      make_condition cal0 parse0 now0 Col.value_bool "is_not" (Value.vStr s) MULTISTRING =
        Except.error "Multi-string attribute can\x27t use `is_not` filters. Use `contains`/`does_not_contain` instead") ∧
    (∀ w : Value,
      make_condition cal0 parse0 now0 Col.value_bool "is_empty" w BOOL =
        Except.error "Boolean attribute can never be empty. Can\x27t use `is_empty` filter.") :=
  claim_C6 cal0 parse0 now0 Col.value_bool "starts_with" (Value.vStr "x") BOOL
    (by simp) (by decide)

/-! The `NUMBER_OP` dispatch table, evaluated at its four keys. -/

theorem NUMBER_OP_sum : NUMBER_OP "sum" = sqlSum := rfl

theorem NUMBER_OP_min : NUMBER_OP "min" = sqlMin := rfl

theorem NUMBER_OP_max : NUMBER_OP "max" = sqlMax := rfl

theorem NUMBER_OP_average : NUMBER_OP "average" = sqlAvg := rfl

theorem create_base_db_query_count :
    create_base_db_query (some "count") none = Except.ok (QueryShape.countAgg false) := rfl

theorem create_base_db_query_count_unique :
    create_base_db_query (some "count_unique") none =
      Except.ok (QueryShape.countAgg true) := rfl

/-- The `value_number` column of the C8 example: `[56.5, 98, null, -13]`. -/
def priceColumn : List (Option Rat) := [some 56.5, some 98, none, some (-13)]

/-- A table (id 7) of four elements whose `price` number attribute holds
`56.5`, `98`, `null` and `-13`. -/
def dbC8 : DB :=
  ⟨[⟨1, "r1", 7, ⟨0, 0⟩⟩, ⟨2, "r2", 7, ⟨0, 0⟩⟩, ⟨3, "r3", 7, ⟨0, 0⟩⟩,
    ⟨4, "r4", 7, ⟨0, 0⟩⟩],
   [{ name := "price", type := "number", element_id := 1,
      value_number := some 56.5, is_number := true },
    { name := "price", type := "number", element_id := 2,
      value_number := some 98, is_number := true },
    { name := "price", type := "number", element_id := 3,
      value_number := none, is_number := true },
    { name := "price", type := "number", element_id := 4,
      value_number := some (-13), is_number := true }],
   5⟩

/-- C8: over the `price` column `[56.5, 98, null, -13]` the aggregation
functions return `sum = 141.5`, `min = -13`, `max = 98`,
`average = 283/6 = 47.166...` (nulls excluded from the denominator),
`count = 3` and `count_unique = 3` (nulls not counted) — both at the level
of the SQL aggregate applied to the column and end to end through
`get_attributes_of_table` on a four-element table. -/
theorem claim_C8 :
    NUMBER_OP "sum" priceColumn = some 141.5 ∧
    NUMBER_OP "min" priceColumn = some (-13) ∧
    NUMBER_OP "max" priceColumn = some 98 ∧
    NUMBER_OP "average" priceColumn = some (283 / 6) ∧
    sqlCount priceColumn = 3 ∧
    sqlCountDistinct priceColumn = 3 ∧
    get_attributes_of_table cal0 parse0 now0 dbC8 7 (some "sum") none none 500 =
      Except.ok [ResultRow.agg (some (DBValue.n 7)) "price" none none
        (some 141.5) none false false true false false] ∧
    get_attributes_of_table cal0 parse0 now0 dbC8 7 (some "min") none none 500 =
      Except.ok [ResultRow.agg (some (DBValue.n 7)) "price" none none
        (some (-13)) none false false true false false] ∧
    get_attributes_of_table cal0 parse0 now0 dbC8 7 (some "max") none none 500 =
      Except.ok [ResultRow.agg (some (DBValue.n 7)) "price" none none
        (some 98) none false false true false false] ∧
    get_attributes_of_table cal0 parse0 now0 dbC8 7 (some "average") none none 500 =
      Except.ok [ResultRow.agg (some (DBValue.n 7)) "price" none none
        (some (283 / 6)) none false false true false false] ∧
    get_attributes_of_table cal0 parse0 now0 dbC8 7 (some "count") none none 500 =
      Except.ok [ResultRow.count (some (DBValue.n 7)) "price" 0 0 3 0
        false false true false false] ∧
    get_attributes_of_table cal0 parse0 now0 dbC8 7 (some "count_unique") none none 500 =
      Except.ok [ResultRow.count (some (DBValue.n 7)) "price" 0 0 3 0
        false false true false false] := by
  refine ⟨?_, ?_, ?_, ?_, ?_, ?_, ?_, ?_, ?_, ?_, ?_, ?_⟩
  · norm_num [NUMBER_OP, sqlSum, priceColumn, List.filterMap]
  · norm_num [NUMBER_OP_min, sqlMin, priceColumn, List.filterMap, min_def]
  · norm_num [NUMBER_OP_max, sqlMax, priceColumn, List.filterMap, max_def]
  · norm_num [NUMBER_OP_average, sqlAvg, priceColumn, List.filterMap]
  · norm_num [sqlCount, priceColumn, List.filterMap]
  · norm_num [sqlCountDistinct, priceColumn, List.filterMap, List.dedup_cons_of_not_mem,
      List.dedup_cons_of_mem]
  · norm_num [get_attributes_of_table, create_base_db_query, create_db_filter,
      last_table_element, elementsOfTable, attributesOfElement, dbC8, uniquePass,
      NUMBER_OP, sqlSum, List.filterMap, List.dedup, Bind.bind, Except.bind,
      List.filter, List.flatMap, pure, Except.pure, List.foldl]
  · norm_num [get_attributes_of_table, create_base_db_query, create_db_filter,
      last_table_element, elementsOfTable, attributesOfElement, dbC8, uniquePass,
      NUMBER_OP_min, sqlMin, List.filterMap, List.dedup, Bind.bind, Except.bind,
      List.filter, List.flatMap, pure, Except.pure, List.foldl, min_def]
  · norm_num [get_attributes_of_table, create_base_db_query, create_db_filter,
      last_table_element, elementsOfTable, attributesOfElement, dbC8, uniquePass,
      NUMBER_OP_max, sqlMax, List.filterMap, List.dedup, Bind.bind, Except.bind,
      List.filter, List.flatMap, pure, Except.pure, List.foldl, max_def]
  · norm_num [get_attributes_of_table, create_base_db_query, create_db_filter,
      last_table_element, elementsOfTable, attributesOfElement, dbC8, uniquePass,
      NUMBER_OP_average, sqlAvg, List.filterMap, List.dedup, Bind.bind, Except.bind,
      List.filter, List.flatMap, pure, Except.pure, List.foldl]
  · norm_num [get_attributes_of_table, create_base_db_query_count, create_db_filter,
      last_table_element, elementsOfTable, attributesOfElement, dbC8,
      sqlCount, sqlCountDistinct, List.filterMap, List.dedup, Bind.bind, Except.bind,
      List.filter, List.flatMap, pure, Except.pure, List.foldl]
  · norm_num [get_attributes_of_table, create_base_db_query_count_unique, create_db_filter,
      last_table_element, elementsOfTable, attributesOfElement, dbC8,
      sqlCount, sqlCountDistinct, List.filterMap, List.dedup, Bind.bind, Except.bind,
      List.filter, List.flatMap, pure, Except.pure, List.foldl]

/-- C9: every string-family upstream property (title, rich text, select,
url, email, phone number) with an empty or absent upstream value (empty
list, empty string, or null) is stored as a string attribute whose value
slot is NULL — never the empty string — and the slot is populated exactly
when the upstream value is non-empty. -/
theorem claim_C9 (parse_date : String → DateTime) (nm : String) (eid : Int) :
    (∀ texts : List String, ∃ a : Attribute,
      notion_attr_to_db_attr parse_date nm (NotionAttr.title texts) eid none = some a ∧
      a.is_string = true ∧ (a.value_string = none ↔ texts = [])) ∧
    (∀ texts : List String, ∃ a : Attribute,
      notion_attr_to_db_attr parse_date nm (NotionAttr.rich_text texts) eid none = some a ∧
      a.is_string = true ∧ (a.value_string = none ↔ texts = [])) ∧
    (∀ s : Option String, ∃ a : Attribute,
      notion_attr_to_db_attr parse_date nm (NotionAttr.select s) eid none = some a ∧
      a.is_string = true ∧ (a.value_string = none ↔ s = none)) ∧
    (∀ s : Option String, ∃ a : Attribute,
      notion_attr_to_db_attr parse_date nm (NotionAttr.url s) eid none = some a ∧
      a.is_string = true ∧ (a.value_string = none ↔ (s = none ∨ s = some ""))) ∧
    (∀ s : Option String, ∃ a : Attribute,
      notion_attr_to_db_attr parse_date nm (NotionAttr.email s) eid none = some a ∧
      a.is_string = true ∧ (a.value_string = none ↔ (s = none ∨ s = some ""))) ∧
    (∀ s : Option String, ∃ a : Attribute,
      notion_attr_to_db_attr parse_date nm (NotionAttr.phone_number s) eid none = some a ∧
      a.is_string = true ∧ (a.value_string = none ↔ (s = none ∨ s = some ""))) := by
  refine ⟨fun texts => ⟨_, rfl, rfl, ?_⟩, fun texts => ⟨_, rfl, rfl, ?_⟩,
    fun s => ?_, fun s => ?_, fun s => ?_, fun s => ?_⟩
  · cases texts <;> simp
  · cases texts <;> simp
  · cases s with
    | none => exact ⟨_, rfl, rfl, by simp⟩
    | some v => exact ⟨_, rfl, rfl, by simp⟩
  · cases s with
    | none => exact ⟨_, rfl, rfl, by simp⟩
    | some v =>
      refine ⟨_, rfl, rfl, ?_⟩
      by_cases hv : v = "" <;> simp [hv]
  · cases s with
    | none => exact ⟨_, rfl, rfl, by simp⟩
    | some v =>
      refine ⟨_, rfl, rfl, ?_⟩
      by_cases hv : v = "" <;> simp [hv]
  · cases s with
    | none => exact ⟨_, rfl, rfl, by simp⟩
    | some v =>
      refine ⟨_, rfl, rfl, ?_⟩
      by_cases hv : v = "" <;> simp [hv]

/-! Structural facts about attribute creation and element updates. -/

theorem create_attribute_elements (pd : String → DateTime) (db : DB) (nm : String)
    (attr : NotionAttr) (eid : Int) :
    (create_attribute pd db nm attr eid).elements = db.elements := by
  unfold create_attribute
  cases notion_attr_to_db_attr pd nm attr eid none <;> rfl

theorem foldl_create_attribute_elements (pd : String → DateTime)
    (props : List (String × NotionAttr)) (db : DB) (eid : Int) :
    (props.foldl (fun d p => create_attribute pd d p.1 p.2 eid) db).elements =
      db.elements := by
  induction props generalizing db with
  | nil => rfl
  | cons p ps ih => rw [List.foldl_cons, ih, create_attribute_elements]

theorem foldl_create_attribute_attributes (pd : String → DateTime)
    (props : List (String × NotionAttr)) (db : DB) (eid : Int) :
    (props.foldl (fun d p => create_attribute pd d p.1 p.2 eid) db).attributes =
      db.attributes ++
        props.filterMap (fun p => notion_attr_to_db_attr pd p.1 p.2 eid none) := by
  induction props generalizing db with
  | nil => simp
  | cons p ps ih =>
    rw [List.foldl_cons, ih]
    unfold create_attribute
    cases h : notion_attr_to_db_attr pd p.1 p.2 eid none with
    | none => simp [List.filterMap_cons, h]
    | some a => simp [List.filterMap_cons, h]

theorem update_element_elements (pd : String → DateTime) (db : DB) (el : Element)
    (le : String) (props : List (String × NotionAttr)) :
    (update_element pd db el le props).elements =
      db.elements.map (fun e =>
        if e.id = el.id then { e with last_edited := pd le } else e) := by
  unfold update_element
  rw [foldl_create_attribute_elements]

theorem update_element_attributes (pd : String → DateTime) (db : DB) (el : Element)
    (le : String) (props : List (String × NotionAttr)) :
    (update_element pd db el le props).attributes =
      db.attributes.filter (fun a => !(decide (a.element_id = el.id))) ++
        props.filterMap (fun p => notion_attr_to_db_attr pd p.1 p.2 el.id none) := by
  unfold update_element
  rw [foldl_create_attribute_attributes]

theorem create_element_elements (pd : String → DateTime) (db : DB) (nid : String)
    (t : Int) (le : String) (props : List (String × NotionAttr)) :
    (create_element pd db nid t le props).elements =
      db.elements ++ [⟨db.next_id, nid, t, pd le⟩] := by
  unfold create_element
  rw [foldl_create_attribute_elements]

theorem notion_attr_to_db_attr_element_id (pd : String → DateTime) (nm : String) :
    ∀ (attr : NotionAttr) (eid : Int) (t : Option String) (a : Attribute),
      notion_attr_to_db_attr pd nm attr eid t = some a → a.element_id = eid := by
  intro attr
  induction attr <;>
    first
      | (intro eid t a h; simp only [notion_attr_to_db_attr] at h; cases h; rfl)
      | (intro eid t a h; simp only [notion_attr_to_db_attr] at h
         exact Option.noConfusion h)
      | (rename_i ih; intro eid t a h; simp only [notion_attr_to_db_attr] at h
         exact ih _ _ _ h)

/-- C3: updating an existing element replaces its attributes wholesale: the
`last_edited` field of the element becomes the parsed new timestamp, the attribute
rows of the element afterwards are exactly those mapped from the new
payload (in payload order — nothing from before the update survives), and
elements and attributes of other rows are untouched. -/
theorem claim_C3 (pd : String → DateTime) (db : DB) (el : Element) (le : String)
    (props : List (String × NotionAttr)) :
    ((update_element pd db el le props).attributes.filter
        (fun a => decide (a.element_id = el.id)) =
      props.filterMap (fun p => notion_attr_to_db_attr pd p.1 p.2 el.id none)) ∧
    (∀ e ∈ (update_element pd db el le props).elements, e.id = el.id →
      e.last_edited = pd le) ∧
    (∀ e ∈ (update_element pd db el le props).elements, e.id ≠ el.id →
      e ∈ db.elements) ∧
    (∀ a ∈ (update_element pd db el le props).attributes, a.element_id ≠ el.id →
      a ∈ db.attributes) := by
  refine ⟨?_, ?_, ?_, ?_⟩
  · rw [update_element_attributes, List.filter_append]
    have h1 : (db.attributes.filter (fun a => !(decide (a.element_id = el.id)))).filter
        (fun a => decide (a.element_id = el.id)) = [] := by
      rw [List.filter_filter]
      apply List.filter_eq_nil_iff.mpr
      intro a _
      simp
    rw [h1, List.nil_append]
    apply List.filter_eq_self.mpr
    intro a ha
    obtain ⟨p, hp, hfp⟩ := List.mem_filterMap.mp ha
    have h2 := notion_attr_to_db_attr_element_id pd p.1 p.2 el.id none a hfp
    simp [h2]
  · rw [update_element_elements]
    intro e he heq
    obtain ⟨x, hx, hxe⟩ := List.mem_map.mp he
    by_cases hid : x.id = el.id
    · rw [if_pos hid] at hxe
      subst hxe
      rfl
    · rw [if_neg hid] at hxe
      subst hxe
      exact absurd heq hid
  · rw [update_element_elements]
    intro e he hne
    obtain ⟨x, hx, hxe⟩ := List.mem_map.mp he
    by_cases hid : x.id = el.id
    · rw [if_pos hid] at hxe
      subst hxe
      exact absurd hid hne
    · rw [if_neg hid] at hxe
      subst hxe
      exact hx
  · rw [update_element_attributes]
    intro a ha hne
    rcases List.mem_append.mp ha with h | h
    · exact List.mem_of_mem_filter h
    · obtain ⟨p, hp, hfp⟩ := List.mem_filterMap.mp h
      exact absurd (notion_attr_to_db_attr_element_id pd p.1 p.2 el.id none a hfp) hne

/-- The element updated in the C3 witness. -/
def elW3 : Element := ⟨1, "row-1", 7, ⟨0, 0⟩⟩

/-- A store holding `elW3` with one stale attribute, and a second element
with its own attribute. -/
def dbW3 : DB :=
  ⟨[elW3, ⟨2, "row-2", 7, ⟨0, 0⟩⟩],
   [{ name := "old", type := "checkbox", element_id := 1, value_bool := some true,
      is_bool := true },
    { name := "keep", type := "checkbox", element_id := 2, value_bool := some false,
      is_bool := true }],
   3⟩

/-- The new payload of the C3 witness (one title property). -/
def propsW3 : List (String × NotionAttr) := [("my_title", NotionAttr.title ["hello"])]

theorem claim_C3_witness :
    ((update_element parseDate0 dbW3 elW3 "2023-05-07T14:08:00" propsW3).attributes.filter
        (fun a => decide (a.element_id = elW3.id)) =
      propsW3.filterMap (fun p => notion_attr_to_db_attr parseDate0 p.1 p.2 elW3.id none)) ∧
    (∀ e ∈ (update_element parseDate0 dbW3 elW3 "2023-05-07T14:08:00" propsW3).elements,
      e.id = elW3.id → e.last_edited = parseDate0 "2023-05-07T14:08:00") ∧
    (∀ e ∈ (update_element parseDate0 dbW3 elW3 "2023-05-07T14:08:00" propsW3).elements,
      e.id ≠ elW3.id → e ∈ dbW3.elements) ∧
    (∀ a ∈ (update_element parseDate0 dbW3 elW3 "2023-05-07T14:08:00" propsW3).attributes,
      a.element_id ≠ elW3.id → a ∈ dbW3.attributes) :=
  claim_C3 parseDate0 dbW3 elW3 "2023-05-07T14:08:00" propsW3

/-- C5: with `update_cache = false`, `reset_cache = false` and an empty
cache for the table, `get_data` makes no upstream call at all, leaves the
store untouched, and returns the empty result as a normal value (not an
error). -/
theorem claim_C5 (pd : String → DateTime) (api : Option DateTime → List NotionPage)
    (db : DB) (table : Table) (ps : Parameters)
    (h1 : ps.update_cache = false) (h2 : ps.reset_cache = false)
    (h3 : elementsOfTable db table.id = []) :
    get_data pd api db table ps = ⟨db, [], Except.ok []⟩ := by
  simp [get_data, h1, h2, extract_data_from_db, get_elements_of_table, h3,
    MAX_ELEMENTS]

/-- C2: with `update_cache = true` and no reset, a non-empty cache makes the
upstream query carry the `last_edited_time after` filter at exactly the
last-modified timestamp of the most recently modified cached element of the
table (a timestamp attained by a cached element and at or above every
timestamp of every cached element); with an empty or just-reset cache the single
upstream query carries no filter at all. -/
theorem claim_C2 (pd : String → DateTime) (api : Option DateTime → List NotionPage)
    (db : DB) (table : Table) (ps : Parameters)
    (hu : ps.update_cache = true) :
    (ps.reset_cache = false → elementsOfTable db table.id ≠ [] →
      ∃ wm : DateTime, (get_data pd api db table ps).calls = [some wm] ∧
        (∃ e ∈ elementsOfTable db table.id, e.last_edited = wm) ∧
        ∀ e ∈ elementsOfTable db table.id, dtLeb e.last_edited wm = true) ∧
    ((ps.reset_cache = true ∨ elementsOfTable db table.id = []) →
      (get_data pd api db table ps).calls = [none]) := by
  constructor
  · intro hr hne
    obtain ⟨r, hrl, hrm, hall⟩ := last_table_element_spec db table.id hne
    refine ⟨r.last_edited, ?_, ⟨r, hrm, rfl⟩, hall⟩
    simp [get_data, hu, hr, hrl]
  · intro h
    by_cases hr : ps.reset_cache = true
    · simp [get_data, hu, hr]
    · have hemp : elementsOfTable db table.id = [] := by tauto
      have hl : last_table_element db table.id = none :=
        (last_table_element_none_iff _ _).mpr hemp
      simp only [Bool.not_eq_true] at hr
      simp [get_data, hu, hr, hl]

theorem sync_foldl_inv (pd : String → DateTime) (t : Int) (ids : List String) :
    ∀ (pages : List NotionPage) (db0 : DB),
      (∀ p ∈ pages, p.id ∈ ids) →
      (∀ e ∈ db0.elements, e.table_id = t → e.notion_id ∈ ids) →
      ∀ e ∈ (pages.foldl
          (fun d element =>
            match get_element_by_notion_id d element.id with
            | none =>
              create_element pd d element.id t
                element.last_edited_time element.properties
            | some db_element =>
              update_element pd d db_element
                element.last_edited_time element.properties)
          db0).elements,
        e.table_id = t → e.notion_id ∈ ids := by
  intro pages
  induction pages with
  | nil =>
    intro db0 _ hinv
    simpa using hinv
  | cons p ps ih =>
    intro db0 hpages hinv
    rw [List.foldl_cons]
    cases hg : get_element_by_notion_id db0 p.id with
    | none =>
      simp only [hg]
      apply ih _ (fun q hq => hpages q (List.mem_cons_of_mem _ hq))
      intro e he het
      rw [create_element_elements] at he
      rcases List.mem_append.mp he with h | h
      · exact hinv e h het
      · have he2 : e = ⟨db0.next_id, p.id, t, pd p.last_edited_time⟩ := by
          simpa using h
        subst he2
        exact hpages p (List.mem_cons_self _ _)
    | some de =>
      simp only [hg]
      apply ih _ (fun q hq => hpages q (List.mem_cons_of_mem _ hq))
      intro e he het
      rw [update_element_elements] at he
      obtain ⟨x, hx, hxe⟩ := List.mem_map.mp he
      by_cases hid : x.id = de.id
      · rw [if_pos hid] at hxe
        subst hxe
        exact hinv x hx het
      · rw [if_neg hid] at hxe
        subst hxe
        exact hinv x hx het

/-- C4: with `reset_cache = true`, all elements of the table are deleted
before any resynchronisation and `update_cache` is forced on: the single
upstream query is an unfiltered full sync even when the caller passed
`update_cache = false`, and afterwards every element of the table comes
from the freshly synced upstream rows (its external id is among the ids of
the full-sync pages — nothing of the old cache survives). -/
theorem claim_C4 (pd : String → DateTime) (api : Option DateTime → List NotionPage)
    (db : DB) (table : Table) (ps : Parameters)
    (hr : ps.reset_cache = true) :
    (get_data pd api db table ps).calls = [none] ∧
    (∀ e ∈ (get_data pd api db table ps).db.elements, e.table_id = table.id →
      e.notion_id ∈ (api none).map (fun p => p.id)) := by
  constructor
  · simp [get_data, hr]
  · have hstep : (get_data pd api db table ps).db =
        (api none).foldl
          (fun d element =>
            match get_element_by_notion_id d element.id with
            | none =>
              create_element pd d element.id table.id
                element.last_edited_time element.properties
            | some db_element =>
              update_element pd d db_element
                element.last_edited_time element.properties)
          (delete_elements_of_table db table.id) := by
      simp [get_data, hr]
    rw [hstep]
    apply sync_foldl_inv pd table.id ((api none).map (fun p => p.id)) (api none) _
      (fun p hp => List.mem_map_of_mem _ hp)
    intro e he het
    exfalso
    have he2 : e ∈ db.elements.filter (fun x => !(decide (x.table_id = table.id))) := he
    have h2 := List.of_mem_filter he2
    simp [het] at h2

/-! Concrete fixtures for the sync-engine witnesses. -/

/-- The table (local id 7) used by the sync witnesses. -/
def tbl7 : Table := ⟨7, "nt7", "token"⟩

/-- The table (local id 9) used by the cold-cache witness; `dbOtherTable`
holds no element of it. -/
def tbl9 : Table := ⟨9, "nt9", "token"⟩

/-- A store with one cached element of table 7. -/
def dbW2 : DB := ⟨[⟨1, "n1", 7, ⟨5, 0⟩⟩], [], 2⟩

/-- An upstream source always answering one page of one row. -/
def apiW : Option DateTime → List NotionPage :=
  fun _ => [⟨"p1", "2023-05-07T14:08:00", [("done", NotionAttr.checkbox true)]⟩]

theorem claim_C2_witness :
    ∃ wm : DateTime,
      (get_data parseDate0 apiW dbW2 tbl7 ⟨false, true, none⟩).calls = [some wm] ∧
      (∃ e ∈ elementsOfTable dbW2 tbl7.id, e.last_edited = wm) ∧
      ∀ e ∈ elementsOfTable dbW2 tbl7.id, dtLeb e.last_edited wm = true :=
  (claim_C2 parseDate0 apiW dbW2 tbl7 ⟨false, true, none⟩ rfl).1 rfl (by decide)

theorem claim_C4_witness :
    (get_data parseDate0 apiW dbW2 tbl7 ⟨true, false, none⟩).calls = [none] ∧
    (∀ e ∈ (get_data parseDate0 apiW dbW2 tbl7 ⟨true, false, none⟩).db.elements,
      e.table_id = tbl7.id → e.notion_id ∈ (apiW none).map (fun p => p.id)) :=
  claim_C4 parseDate0 apiW dbW2 tbl7 ⟨true, false, none⟩ rfl

theorem claim_C5_witness :
    get_data parseDate0 apiW dbOtherTable tbl9 ⟨false, false, none⟩ =
      ⟨dbOtherTable, [], Except.ok []⟩ :=
  claim_C5 parseDate0 apiW dbOtherTable tbl9 ⟨false, false, none⟩ rfl rfl (by decide)

/-- Length of a successful query result (0 for an error). -/
def resultLength : Except String (List ResultRow) → Nat
  | Except.ok l => l.length
  | Except.error _ => 0

/-- The full (un-truncated) number of attribute rows the raw query matches:
every attribute row whose element belongs to the table. -/
def rawRowCount (db : DB) (table_id : Int) : Nat :=
  (db.attributes.filter (fun a =>
    (elementsOfTable db table_id).any (fun e => decide (e.id = a.element_id)))).length

/-- One boolean attribute row of element 1, repeated 501 times in `dbC1`. -/
def attrC1 : Attribute :=
  { name := "flag", type := "checkbox", element_id := 1, value_bool := some true,
    is_bool := true }

/-- A table (id 3) with one element carrying 501 attribute rows — more than
the default `limit` of 500 of `get_attributes_of_table`. -/
def dbC1 : DB := ⟨[⟨1, "e1", 3, ⟨0, 0⟩⟩], List.replicate 501 attrC1, 2⟩

/-- C1 counterexample: on a table matching 501 attribute rows,
`get_attributes_of_table` with the default `limit` of 500 returns a
successful, silently truncated list of exactly 500 rows
(`query.limit(limit).all()`) — it raises no "too many attributes"
condition, contradicting the claim that the query operation aborts instead
of truncating. -/
theorem claim_C1_counterexample :
    get_attributes_of_table cal0 parse0 now0 dbC1 3 none none none 500 =
      Except.ok (List.replicate 500 (ResultRow.raw attrC1)) ∧
    resultLength (get_attributes_of_table cal0 parse0 now0 dbC1 3 none none none 500) =
      500 ∧
    rawRowCount dbC1 3 = 501 := by
  have h1 : get_attributes_of_table cal0 parse0 now0 dbC1 3 none none none 500 =
      Except.ok ((((List.replicate 501 attrC1).filter
        (fun a => decide ((1 : Int) = a.element_id) || false)).take 500).map
          ResultRow.raw) := rfl
  have hq : get_attributes_of_table cal0 parse0 now0 dbC1 3 none none none 500 =
      Except.ok (List.replicate 500 (ResultRow.raw attrC1)) := by
    rw [h1, List.filter_replicate]
    norm_num [attrC1, List.take_replicate, List.map_replicate]
  have h2 : rawRowCount dbC1 3 =
      ((List.replicate 501 attrC1).filter
        (fun a => decide ((1 : Int) = a.element_id) || false)).length := rfl
  refine ⟨hq, ?_, ?_⟩
  · rw [hq]
    show (List.replicate 500 (ResultRow.raw attrC1)).length = 500
    rw [List.length_replicate]
  · rw [h2, List.filter_replicate]
    norm_num [attrC1]

/-- C1 as amended: the abort-rather-than-truncate behaviour lives on the
data-extraction path of `get_data`: `extract_data_from_db` raises the
distinct `TooMuchElements` condition exactly when the table holds more than
`MAX_ELEMENTS` (100) element rows, and otherwise returns a row for every
element of the table, untruncated.  `get_attributes_of_table` itself never
raises a size condition — it silently truncates to its `limit` (default
500) attribute rows, as the counterexample shows. -/
theorem claim_C1_amended (db : DB) (t : Int) :
    ((elementsOfTable db t).length > MAX_ELEMENTS →
      extract_data_from_db db t = Except.error ExtractError.tooMuchElements) ∧
    ((elementsOfTable db t).length ≤ MAX_ELEMENTS →
      extract_data_from_db db t =
        Except.ok ((elementsOfTable db t).map (elementRow db))) := by
  constructor
  · intro h
    unfold extract_data_from_db get_elements_of_table
    rw [if_pos (by rw [List.length_take]; simp only [MAX_ELEMENTS] at h ⊢; omega)]
  · intro h
    have hle : (elementsOfTable db t).length ≤ MAX_ELEMENTS + 1 := by omega
    have hl : (elementsOfTable db t).take (MAX_ELEMENTS + 1) = elementsOfTable db t :=
      List.take_of_length_le hle
    unfold extract_data_from_db get_elements_of_table
    rw [hl, if_neg (by omega)]

/-- A table (id 1) with 101 cached element rows, one more than the
extraction cap. -/
def dbBig : DB := ⟨List.replicate 101 ⟨1, "x", 1, ⟨0, 0⟩⟩, [], 2⟩

theorem claim_C1_witness :
    extract_data_from_db dbBig 1 = Except.error ExtractError.tooMuchElements ∧
    extract_data_from_db dbW2 7 =
      Except.ok ((elementsOfTable dbW2 7).map (elementRow dbW2)) :=
  ⟨(claim_C1_amended dbBig 1).1 (by decide),
   (claim_C1_amended dbW2 7).2 (by decide)⟩

end Clothion
